import Mathlib

/-!
Verification development for the WebIDL front end of shaka-player-embedded
(`shaka/tools/webidl/`).  The Python sources are shallowly embedded:

* `webidl/idl_tokenizer.py` (hand-written tokenizer)  → `TokState`, `srRead`,
  `skipWsComments`, `tokPeek`, `tokNext`, `tokExpect`, ...
* `webidl/idl_parser.py` (recursive-descent parser)   → `readType`,
  `readArgList`, `readConst`, `readExtension`, `readDictionary`, ...
* `webidl/lexer.py` (PLY lexer)                       → `plyNextToken`, ...
* `webidl/parser.py` (PLY grammar parser, `Options`)  → `optionsInit`,
  `plyParse...`, `parseFinish`, `idlParserInitRaises`, ...
* `webidl/types.py` (AST namedtuples)                 → `typesNamedTuples`,
  `typesModuleNames` (the module-level attribute table used to model Python
  attribute lookup and namedtuple construction).

Python exceptions are modelled by `PyErr`; functions that can raise return
`Except PyErr`.  Loops are given explicit fuel; `PyErr.nonTermination` marks
fuel exhaustion and is never produced when the fuel exceeds the input length.
-/

set_option autoImplicit false
set_option maxRecDepth 20000
set_option maxHeartbeats 1000000

/-- Model of the Python exceptions raised by this code base.
`syntaxError` carries the `(msg, (file, line, col, line_text))` arguments used
throughout the repo; `syntaxBare` is a `SyntaxError` raised with a message
only.  `nonTermination` is a fuel artifact of the embedding. -/
inductive PyErr where
  | syntaxError (msg file : String) (line col : Nat) (text : String)
  | syntaxBare (msg : String)
  | valueError (msg : String)
  | attributeError (attr : String)
  | typeError (ctor : String)
  | assertionError (msg : String)
  | runtimeError (msg : String)
  | nonTermination
deriving DecidableEq, Repr

/-- Whether the exception is (a subclass of) Python `SyntaxError`; only those
are caught by `IdlParser.parse` in `parser.py`. -/
def PyErr.isSyntaxError : PyErr → Bool
  | .syntaxError _ _ _ _ _ => true
  | .syntaxBare _ => true
  | _ => false

/-- Python numeric token values.  Floats are kept as their lexeme since no
claim depends on float arithmetic; `nan`, `inf`, `ninf` model
`float('nan')`, `float('inf')`, `float('-inf')`. -/
inductive PyNum where
  | int (i : Int)
  | float (lexeme : String)
  | nan
  | inf
  | ninf
deriving DecidableEq, Repr

/-- Characters considered whitespace by Python `string.whitespace`. -/
def pyWhitespace (c : Char) : Bool :=
  c = ' ' || c = '\t' || c = '\n' || c = '\r' || c = '\x0b' || c = '\x0c'

/-- ASCII letters, Python `string.ascii_letters`. -/
def asciiLetter (c : Char) : Bool :=
  ('a' ≤ c && c ≤ 'z') || ('A' ≤ c && c ≤ 'Z')

/-- ASCII digits, Python `string.digits`. -/
def asciiDigit (c : Char) : Bool :=
  '0' ≤ c && c ≤ '9'

/-- First index `≥ start` (relative result is absolute) at which `sub` occurs
in `l`; `none` if it does not occur.  Mirrors Python `str.find`. -/
def findSubAux : List Char → List Char → Nat → Option Nat
  | [], sub, i => if sub.isEmpty then some i else none
  | c :: rest, sub, i =>
    if sub.isPrefixOf (c :: rest) then some i else findSubAux rest sub (i + 1)

/-- Python `data.find(sub, start)` returning an absolute index option. -/
def findSub (data sub : List Char) (start : Nat) : Option Nat :=
  match findSubAux (data.drop start) sub 0 with
  | some rel => some (start + rel)
  | none => none

/-- Python `data.rfind(sub, 0, stop)`: the last index `< stop` at which `sub`
occurs (here only used with single characters), or `none`. -/
def rfindBeforeAux : List Char → Char → Nat → Option Nat → Option Nat
  | [], _, _, acc => acc
  | c :: rest, target, i, acc =>
    rfindBeforeAux rest target (i + 1) (if c = target then some i else acc)

/-- Python `data.rfind(ch, 0, stop)` (as used with `'\n'`). -/
def rfindBefore (data : List Char) (target : Char) (stop : Nat) : Option Nat :=
  rfindBeforeAux (data.take stop) target 0 none

/-- Number of `'\n'` characters in `l` (Python `s.count('\n')`). -/
def countNewlines (l : List Char) : Nat :=
  l.countP (fun c => c = '\n')

/-- `IdlTokenType` from `idl_tokenizer.py`. -/
inductive IdlTokType where
  | BEGIN_INTERFACE | END_INTERFACE | BEGIN_ARGS | END_ARGS | COMMA
  | SEMI_COLON | NULLABLE | BEGIN_TEMPLATE | END_TEMPLATE | BEGIN_EXTENSION
  | END_EXTENSION | EQUALS | ELLIPSIS | DICTIONARY | OPTIONAL
  | STRING_LITERAL | NUMBER_LITERAL | IDENTIFIER
deriving DecidableEq, Repr

/-- The `name` of each enum member (used in `expect` error messages). -/
def IdlTokType.name : IdlTokType → String
  | .BEGIN_INTERFACE => "BEGIN_INTERFACE"
  | .END_INTERFACE => "END_INTERFACE"
  | .BEGIN_ARGS => "BEGIN_ARGS"
  | .END_ARGS => "END_ARGS"
  | .COMMA => "COMMA"
  | .SEMI_COLON => "SEMI_COLON"
  | .NULLABLE => "NULLABLE"
  | .BEGIN_TEMPLATE => "BEGIN_TEMPLATE"
  | .END_TEMPLATE => "END_TEMPLATE"
  | .BEGIN_EXTENSION => "BEGIN_EXTENSION"
  | .END_EXTENSION => "END_EXTENSION"
  | .EQUALS => "EQUALS"
  | .ELLIPSIS => "ELLIPSIS"
  | .DICTIONARY => "DICTIONARY"
  | .OPTIONAL => "OPTIONAL"
  | .STRING_LITERAL => "STRING_LITERAL"
  | .NUMBER_LITERAL => "NUMBER_LITERAL"
  | .IDENTIFIER => "IDENTIFIER"

/-- The single-character enum values of `IdlTokenType` (the check
`any(ch == t.value for t in IdlTokenType)` in `IdlTokenizer.peek`). -/
def charTokType (c : Char) : Option IdlTokType :=
  if c = '{' then some .BEGIN_INTERFACE
  else if c = '}' then some .END_INTERFACE
  else if c = '(' then some .BEGIN_ARGS
  else if c = ')' then some .END_ARGS
  else if c = ',' then some .COMMA
  else if c = ';' then some .SEMI_COLON
  else if c = '?' then some .NULLABLE
  else if c = '<' then some .BEGIN_TEMPLATE
  else if c = '>' then some .END_TEMPLATE
  else if c = '[' then some .BEGIN_EXTENSION
  else if c = ']' then some .END_EXTENSION
  else if c = '=' then some .EQUALS
  else none

/-- Multi-character enum values of `IdlTokenType` (`_set_peek`'s lookup of a
string value among the enum values; everything else is `IDENTIFIER`). -/
def strTokType (s : String) : IdlTokType :=
  if s = "..." then .ELLIPSIS
  else if s = "dictionary" then .DICTIONARY
  else if s = "optional" then .OPTIONAL
  else match s.toList with
    | [c] => (charTokType c).getD .IDENTIFIER
    | _ => .IDENTIFIER

/-- Token value: string-valued or numeric (cf. `IdlToken.value`). -/
inductive IdlTokVal where
  | s (v : String)
  | num (v : PyNum)
deriving DecidableEq, Repr

/-- `IdlToken` namedtuple from `idl_tokenizer.py`. -/
structure IdlToken where
  type : IdlTokType
  value : IdlTokVal
  length : Nat
  doc : Option String
deriving DecidableEq, Repr

/-- Combined `StringReader` + `IdlTokenizer` state: `pos`/`line`/`col` are the
reader cursor, `doc` is the pending `_doc`, `pk` the cached `_peek`. -/
structure TokState where
  file : String
  data : List Char
  pos : Nat
  line : Nat
  col : Nat
  doc : Option String
  pk : Option IdlToken
deriving DecidableEq, Repr

/-- `IdlTokenizer.__init__`. -/
def tokInit (file : String) (text : String) : TokState :=
  { file := file, data := text.toList, pos := 0, line := 1, col := 1,
    doc := none, pk := none }

/-- `StringReader.peek(count)`. -/
def srPeek (st : TokState) (count : Nat) : List Char :=
  (st.data.drop st.pos).take count

/-- `StringReader.read(count)`: advances `pos` and the line/column trackers. -/
def srRead (st : TokState) (count : Nat) : TokState :=
  let ret := srPeek st count
  let newCol :=
    match rfindBefore ret '\n' ret.length with
    | some idx => ret.length - idx
    | none => st.col + ret.length
  { st with
    pos := st.pos + ret.length
    line := st.line + countNewlines ret
    col := newCol }

/-- `StringReader.peek_until(substr, skip)`. -/
def srPeekUntil (st : TokState) (sub : List Char) (skip : Nat) : List Char :=
  let idx := (findSub st.data sub (st.pos + skip)).getD st.data.length
  (st.data.drop st.pos).take (idx + sub.length - st.pos)

/-- `StringReader.peek_in_character_set(choices, skip)`. -/
def srPeekInCharSet (st : TokState) (choices : Char → Bool) (skip : Nat) :
    List Char :=
  let rest := st.data.drop st.pos
  rest.take skip ++ (rest.drop skip).takeWhile choices

/-- `StringReader.get_line()`: the full source line containing `pos`. -/
def srGetLine (st : TokState) : List Char :=
  let prev : Int :=
    match rfindBefore st.data '\n' st.pos with
    | some idx => (idx : Int)
    | none => -1
  let nxt := (findSub st.data ['\n'] st.pos).getD st.data.length
  (st.data.drop (prev + 1).toNat).take (nxt - (prev + 1).toNat)

/-- `IdlTokenizer.raise_error(message)`: a located `SyntaxError` at the
current reader position. -/
def tokRaiseError (st : TokState) (msg : String) : PyErr :=
  .syntaxError msg st.file st.line st.col (String.mk (srGetLine st))

/-- `IdlTokenizer._skip_whitespace_and_comments`.  `extra` is the local
variable accumulating same-line whitespace prefixed to a doc comment. -/
def skipWsComments : Nat → TokState → List Char → Except PyErr TokState
  | 0, _, _ => .error .nonTermination
  | fuel + 1, st, extra =>
    match srPeek st 1 with
    | [] => .ok st
    | c :: _ =>
      if pyWhitespace c then
        skipWsComments fuel (srRead st 1) (if c = '\n' then [] else extra ++ [c])
      else if c = '/' then
        match srPeek st 2 with
        | ['/', '/'] =>
          let comment := srPeekUntil st ['\n'] 0
          skipWsComments fuel (srRead st comment.length) []
        | ['/', '*'] =>
          let d := srPeekUntil st ['*', '/'] 2
          if d = ['/', '*', '/'] ∨ ¬ (['*', '/'].isSuffixOf d) then
            .error (tokRaiseError st "Unexpected EOF in comment")
          else
            let st' :=
              if d ≠ ['/', '*', '*', '/'] ∧ d.take 3 = ['/', '*', '*'] then
                { st with doc := some (String.mk (extra ++ d)) }
              else st
            skipWsComments fuel (srRead st' d.length) []
        | _ => .ok st
      else .ok st

/-- Helper building the `_set_peek` token: value lookup among enum values,
default length, doc attachment and clearing (`IdlTokenizer._set_peek`). -/
def setPeekTok (st : TokState) (value : IdlTokVal) (length : Nat)
    (ty : IdlTokType) : TokState :=
  { st with
    pk := some { type := ty, value := value, length := length, doc := st.doc }
    doc := none }

/-- `_set_peek(value)` for string values with no explicit type/length. -/
def setPeekStr (st : TokState) (v : String) : TokState :=
  setPeekTok st (.s v) v.length (strTokType v)

/-- `IdlTokenizer._peek_token(allow_dot)` character set. -/
def peekTokenCharSet (allowDot : Bool) (c : Char) : Bool :=
  c = '-' || c = '_' || asciiLetter c || asciiDigit c || (allowDot && c = '.')

/-- `IdlTokenizer._peek_token(allow_dot, skip)`. -/
def peekTokenWord (st : TokState) (allowDot : Bool) (skip : Nat) : List Char :=
  srPeekInCharSet st (peekTokenCharSet allowDot) skip

/-- Python `int(word, 16)` as used on `0x`/`0X`-prefixed words (with an
optional leading minus); `none` models `ValueError`. -/
def pyIntBase16 (word : List Char) : Option Int :=
  let (neg, w) := match word with
    | '-' :: rest => (true, rest)
    | _ => (false, word)
  let isHex : Char → Bool := fun c =>
    asciiDigit c || ('a' ≤ c && c ≤ 'f') || ('A' ≤ c && c ≤ 'F')
  let hexVal : Char → Nat := fun c =>
    if asciiDigit c then c.toNat - 48
    else if 'a' ≤ c && c ≤ 'f' then c.toNat - 87
    else c.toNat - 55
  match w with
  | '0' :: x :: digits =>
    if (x = 'x' ∨ x = 'X') ∧ ¬ digits.isEmpty ∧ digits.all isHex then
      let v : Nat := digits.foldl (fun acc c => acc * 16 + hexVal c) 0
      some (if neg then -(v : Int) else (v : Int))
    else none
  | _ => none

/-- Python `int(word, 8)` as used on `0`-prefixed words; `none` models
`ValueError`. -/
def pyIntBase8 (word : List Char) : Option Int :=
  let w := match word with
    | '0' :: o :: rest => if o = 'o' ∨ o = 'O' then rest else word
    | _ => word
  if ¬ w.isEmpty ∧ w.all (fun c => '0' ≤ c ∧ c ≤ '7') then
    some ((w.foldl (fun acc c => acc * 8 + (c.toNat - 48)) 0 : Nat) : Int)
  else none

/-- Validity of the numeric part of Python `float(word)`:
`digits [. digits*] | . digits+`, optional exponent. -/
def pyFloatBody (w : List Char) : Bool :=
  let mantissa := w.takeWhile (fun c => asciiDigit c || c = '.')
  let expPart := w.drop mantissa.length
  let intPart := mantissa.takeWhile asciiDigit
  let fracOk := match mantissa.drop intPart.length with
    | [] => ¬ intPart.isEmpty
    | '.' :: frac => frac.all asciiDigit ∧ (¬ intPart.isEmpty ∨ ¬ frac.isEmpty)
    | _ => false
  let expOk := match expPart with
    | [] => true
    | e :: rest =>
      if e = 'e' ∨ e = 'E' then
        let rest' := match rest with
          | '+' :: r => r
          | '-' :: r => r
          | r => r
        ¬ rest'.isEmpty ∧ rest'.all asciiDigit
      else false
  fracOk && expOk

/-- Python `float(word)`; `none` models `ValueError`.  Finite values keep
their lexeme (no claim depends on float arithmetic). -/
def pyFloat (word : List Char) : Option PyNum :=
  let (neg, w) := match word with
    | '-' :: rest => (true, rest)
    | '+' :: rest => (false, rest)
    | _ => (false, word)
  let lw := String.mk (w.map Char.toLower)
  if lw = "inf" ∨ lw = "infinity" then some (if neg then .ninf else .inf)
  else if lw = "nan" then some .nan
  else if pyFloatBody w then some (.float (String.mk word))
  else none

/-- `IdlTokenizer._set_peek_number`. -/
def setPeekNumber (st : TokState) : Except PyErr TokState :=
  let word := peekTokenWord st true 0
  if word = "-Infinity".toList then
    .ok (setPeekTok st (.num .ninf) 9 .NUMBER_LITERAL)
  else
    let value : Option PyNum :=
      if ['0', 'x'].isPrefixOf word ∨ ['0', 'X'].isPrefixOf word ∨
         ['-', '0', 'x'].isPrefixOf word ∨ ['-', '0', 'X'].isPrefixOf word then
        (pyIntBase16 word).map PyNum.int
      else if ['0'].isPrefixOf word then
        (pyIntBase8 word).map PyNum.int
      else
        pyFloat word
    match value with
    | none => .error (tokRaiseError st "Invalid number format")
    | some v => .ok (setPeekTok st (.num v) word.length .NUMBER_LITERAL)

/-- `IdlTokenizer._set_peek_string`. -/
def setPeekString (st : TokState) : Except PyErr TokState :=
  let word := srPeekUntil st ['"'] 1
  if ¬ (['"'].isSuffixOf word) ∨ word = ['"'] then
    .error (tokRaiseError st "Unexpected EOF in string literal")
  else if word.contains '\n' then
    .error (tokRaiseError st "Newline in string literal")
  else
    .ok (setPeekTok st (.s (String.mk (word.drop 1).dropLast)) word.length
      .STRING_LITERAL)

/-- `IdlTokenizer.peek()`. -/
def tokPeek (st : TokState) : Except PyErr (Option IdlToken × TokState) :=
  match st.pk with
  | some t => .ok (some t, st)
  | none => do
    let st ← skipWsComments (st.data.length + 1) st []
    match srPeek st 1 with
    | [] => .ok (none, st)
    | c :: _ =>
      let st' ←
        if (charTokType c).isSome then
          pure (setPeekStr st (String.mk [c]))
        else if c = '"' then
          setPeekString st
        else if c = '.' ∧ srPeek st 3 = ['.', '.', '.'] then
          pure (setPeekStr st "...")
        else if asciiDigit c ∨ c = '-' ∨ c = '.' then
          setPeekNumber st
        else if c = '_' ∨ asciiLetter c then
          let ident := String.mk (peekTokenWord st false 0)
          if ident = "NaN" then
            pure (setPeekTok st (.num .nan) 3 .NUMBER_LITERAL)
          else if ident = "Infinity" then
            pure (setPeekTok st (.num .inf) 8 .NUMBER_LITERAL)
          else
            pure (setPeekStr st ident)
        else
          .error (tokRaiseError st ("Unexpected character \"" ++
            String.mk [c] ++ "\""))
      .ok (st'.pk, st')

/-- `IdlTokenizer.next()`. -/
def tokNext (st : TokState) : Except PyErr (Option IdlToken × TokState) := do
  let (t?, st) ← tokPeek st
  match t? with
  | none => .ok (none, st)
  | some t => .ok (some t, { srRead st t.length with pk := none })

/-- `IdlTokenizer.expect(token_type)`. -/
def tokExpect (st : TokState) (ty : IdlTokType) :
    Except PyErr (IdlToken × TokState) := do
  let (t?, st) ← tokPeek st
  match t? with
  | none =>
    .error (tokRaiseError st ("Unexpected EOF looking for \"" ++ ty.name ++
      "\""))
  | some t =>
    if t.type ≠ ty then
      .error (tokRaiseError st ("Expecting \"" ++ ty.name ++ "\", got \"" ++
        t.type.name ++ "\""))
    else do
      let (_, st) ← tokNext st
      .ok (t, st)

/-- `IdlTokenizer.read_if_type(token_type)`. -/
def tokReadIf (st : TokState) (ty : IdlTokType) :
    Except PyErr (Bool × TokState) := do
  let (t?, st) ← tokPeek st
  match t? with
  | none => .ok (false, st)
  | some t =>
    if t.type ≠ ty then .ok (false, st)
    else do
      let (_, st) ← tokNext st
      .ok (true, st)

/-- `IdlTokenizer.peek_is_type(token_type)`. -/
def tokPeekIsType (st : TokState) (ty : IdlTokType) :
    Except PyErr (Bool × TokState) := do
  let (t?, st) ← tokPeek st
  .ok (t?.any (fun t => t.type = ty), st)

/-- `IdlType` namedtuple from `idl_parser.py` (fields `name`, `nullable`,
`element_type`).  The `element_type` field is either `None` (`simple`) or an
inner `IdlType` (`templated`); the split avoids a nested `Option`. -/
inductive IdlType where
  | simple (name : String) (nullable : Bool)
  | templated (name : String) (nullable : Bool) (element : IdlType)
deriving DecidableEq, Repr

/-- Accessor for `IdlType.name`. -/
def IdlType.name : IdlType → String
  | .simple n _ => n
  | .templated n _ _ => n

/-- Accessor for `IdlType.nullable`. -/
def IdlType.nullable : IdlType → Bool
  | .simple _ u => u
  | .templated _ u _ => u

/-- Accessor for `IdlType.element_type`. -/
def IdlType.element_type : IdlType → Option IdlType
  | .simple _ _ => none
  | .templated _ _ e => some e

/-- `IdlType(name=..., nullable=..., element_type=...)`. -/
def IdlType.make (name : String) (nullable : Bool) :
    Option IdlType → IdlType
  | none => .simple name nullable
  | some e => .templated name nullable e

/-- Values `read_const` can produce: `True`/`False`, numbers, strings,
`IdlNull()` and the empty list `[]`. -/
inductive ConstVal where
  | b (v : Bool)
  | num (v : PyNum)
  | s (v : String)
  | null
  | emptyList
deriving DecidableEq, Repr

/-- `IdlArgument` namedtuple from `idl_parser.py`. -/
structure IdlArgument where
  name : String
  type : IdlType
  optional : Bool
  is_variadic : Bool
  default : Option ConstVal
deriving DecidableEq, Repr

/-- `IdlAttribute` namedtuple from `idl_parser.py`. -/
structure IdlAttribute where
  name : String
  type : IdlType
  doc : Option String
deriving DecidableEq, Repr

/-- `Dictionary` namedtuple from `idl_parser.py`. -/
structure PDictionary where
  name : String
  attributes : List IdlAttribute
  doc : Option String
deriving DecidableEq, Repr

/-- `IdlFile` namedtuple from `idl_parser.py`. -/
structure IdlFile where
  types : List PDictionary
deriving DecidableEq, Repr

/-- `IdlExtensionKind` from `idl_parser.py`. -/
inductive IdlExtensionKind where
  | NO_ARGS | ARG_LIST | NAMED_ARG_LIST | IDENT | IDENT_LIST
deriving DecidableEq, Repr

/-- `IdlExtensionLocation` from `idl_parser.py`. -/
inductive IdlExtensionLocation where
  | DEFINITION | TYPE | MEMBER | MIXIN_MEMBER | NAMESPACE_MEMBER
  | DICTIONARY_MEMBER | ARGUMENT
deriving DecidableEq, Repr

/-- A registered extension descriptor: an `IdlExtension` subclass with its
class fields `name`, `kind`, `locations`. -/
structure IdlExtensionType where
  name : String
  kind : IdlExtensionKind
  locations : List IdlExtensionLocation
deriving DecidableEq, Repr

/-- A constructed extension object: the descriptor called with the
kind-specific keyword arguments (`IdlExtension.__init__` sets them as
attributes). -/
inductive IdlExtensionInstance where
  | noArgs (ty : IdlExtensionType)
  | argList (ty : IdlExtensionType) (args : List IdlArgument)
  | namedArgList (ty : IdlExtensionType) (argsName : String)
      (args : List IdlArgument)
  | ident (ty : IdlExtensionType) (arg : String)
  | identList (ty : IdlExtensionType) (args : List String)
deriving DecidableEq, Repr

/-- The string payload of a token value (identifier/string tokens). -/
def IdlTokVal.str : IdlTokVal → String
  | .s v => v
  | .num _ => ""

/-- `IdlParser.read_type`. -/
def readType : Nat → TokState → Except PyErr (IdlType × TokState)
  | 0, _ => .error .nonTermination
  | fuel + 1, st => do
    let (tok, st) ← tokExpect st .IDENTIFIER
    let typeName := tok.value.str
    let (isTpl, st) ← tokReadIf st .BEGIN_TEMPLATE
    if isTpl then
      if typeName ≠ "sequence" then
        .error (tokRaiseError st "Can only use templates (<>) on sequence<T>.")
      else do
        let (elem, st) ← readType fuel st
        let (_, st) ← tokExpect st .END_TEMPLATE
        let (nullable, st) ← tokReadIf st .NULLABLE
        .ok (IdlType.make typeName nullable (some elem), st)
    else do
      let (nullable, st) ← tokReadIf st .NULLABLE
      .ok (IdlType.make typeName nullable none, st)

/-- `IdlParser.read_const(allow_obj)`. -/
def readConst (st : TokState) (allowObj : Bool) :
    Except PyErr (ConstVal × TokState) := do
  let (isIdent, st) ← tokPeekIsType st .IDENTIFIER
  if isIdent then do
    let (t?, st) ← tokPeek st
    match t? with
    | some t =>
      if t.value.str = "true" then do
        let (_, st) ← tokNext st
        .ok (.b true, st)
      else if t.value.str = "false" then do
        let (_, st) ← tokNext st
        .ok (.b false, st)
      else if t.value.str = "null" then do
        let (_, st) ← tokNext st
        .ok (.null, st)
      else .error (tokRaiseError st "Invalid constant value")
    | none => .error (tokRaiseError st "Invalid constant value")
  else do
    let (isNum, st) ← tokPeekIsType st .NUMBER_LITERAL
    if isNum then do
      let (tok, st) ← tokExpect st .NUMBER_LITERAL
      match tok.value with
      | .num v => .ok (.num v, st)
      | .s v => .ok (.s v, st)
    else if allowObj then do
      let (isList, st) ← tokReadIf st .BEGIN_EXTENSION
      if isList then do
        let (_, st) ← tokExpect st .END_EXTENSION
        .ok (.emptyList, st)
      else do
        let (isStr, st) ← tokPeekIsType st .STRING_LITERAL
        if isStr then do
          let (tok, st) ← tokExpect st .STRING_LITERAL
          .ok (.s tok.value.str, st)
        else .error (tokRaiseError st "Expecting a constant")
    else .error (tokRaiseError st "Expecting a constant")

/-- The variadic (`...`) part of the `read_arg_list` loop body: optional
arguments reject a following ellipsis; non-optional ones read it. -/
def readOneArgVariadic (optional : Bool) (st : TokState) :
    Except PyErr (Bool × TokState) :=
  if optional then
    match tokPeekIsType st .ELLIPSIS with
    | .error e => .error e
    | .ok (isEllipsis, st) =>
      if isEllipsis then
        .error (tokRaiseError st
          "Cannot use \"...\" with optional arguments")
      else .ok (false, st)
  else
    tokReadIf st .ELLIPSIS

/-- The default-value part of the loop body: optional arguments may read
`= const`; non-optional ones reject `=` and reject following an optional
argument. -/
def readOneArgDefault (optional priorOptional : Bool) (st : TokState) :
    Except PyErr (Option ConstVal × TokState) :=
  if optional then
    match tokReadIf st .EQUALS with
    | .error e => .error e
    | .ok (isEq, st) =>
      if isEq then
        match readConst st true with
        | .error e => .error e
        | .ok (v, st) => .ok (some v, st)
      else .ok (none, st)
  else
    match tokPeekIsType st .EQUALS with
    | .error e => .error e
    | .ok (isEq, st) =>
      if isEq then
        .error (tokRaiseError st
          "Cannot have default values with non-optional argument")
      else if priorOptional then
        .error (tokRaiseError st "Optional arguments must appear last")
      else .ok (none, st)

/-- One iteration body of the `while True` loop of `IdlParser.read_arg_list`,
up to and including the `ret.append(...)`: reads one argument.
`priorOptional` is `any(i for i in ret if i.optional)`. -/
def readOneArg (fuel : Nat) (st : TokState) (priorOptional : Bool) :
    Except PyErr (IdlArgument × TokState) :=
  match tokReadIf st .OPTIONAL with
  | .error e => .error e
  | .ok (optional, st) =>
  match readType fuel st with
  | .error e => .error e
  | .ok (ty, st) =>
  match readOneArgVariadic optional st with
  | .error e => .error e
  | .ok (variadic, st) =>
  match tokExpect st .IDENTIFIER with
  | .error e => .error e
  | .ok (nameTok, st) =>
  match readOneArgDefault optional priorOptional st with
  | .error e => .error e
  | .ok (default, st) =>
    .ok ({ name := nameTok.value.str, type := ty, optional := optional,
           is_variadic := variadic, default := default }, st)

/-- The `while True` loop of `IdlParser.read_arg_list`; `ret` is the
accumulated argument list. -/
def readArgListLoop : Nat → TokState → List IdlArgument →
    Except PyErr (List IdlArgument × TokState)
  | 0, _, _ => .error .nonTermination
  | fuel + 1, st, ret =>
    match readOneArg fuel st (ret.any (·.optional)) with
    | .error e => .error e
    | .ok (arg, st) =>
    match tokPeekIsType st .COMMA with
    | .error e => .error e
    | .ok (isComma, st) =>
      if isComma then
        if arg.is_variadic then
          .error (tokRaiseError st
            "An argument with \"...\" must appear last")
        else
          match tokExpect st .COMMA with
          | .error e => .error e
          | .ok (_, st) => readArgListLoop fuel st (ret ++ [arg])
      else .ok (ret ++ [arg], st)

/-- `IdlParser.read_arg_list`. -/
def readArgList (fuel : Nat) (st : TokState) :
    Except PyErr (List IdlArgument × TokState) :=
  match tokExpect st .BEGIN_ARGS with
  | .error e => .error e
  | .ok (_, st) =>
  match tokPeekIsType st .END_ARGS with
  | .error e => .error e
  | .ok (isEnd, st) =>
  match (if isEnd then .ok ([], st) else readArgListLoop fuel st [] :
      Except PyErr (List IdlArgument × TokState)) with
  | .error e => .error e
  | .ok (ret, st) =>
  match tokExpect st .END_ARGS with
  | .error e => .error e
  | .ok (_, st) => .ok (ret, st)

/-- Phrases used by `IdlParser._check_extension_kind`. -/
def kindPhrase : IdlExtensionKind → String
  | .NO_ARGS => "no arguments"
  | .ARG_LIST => "an argument list"
  | .NAMED_ARG_LIST => "a named argument list"
  | .IDENT => "an identifier"
  | .IDENT_LIST => "an identifier list"

/-- `IdlParser._check_extension_kind`. -/
def checkExtensionKind (st : TokState) (ext : IdlExtensionType)
    (actual : IdlExtensionKind) : Except PyErr Unit :=
  if actual = ext.kind then .ok ()
  else
    .error (tokRaiseError st ("[" ++ ext.name ++ "] should have " ++
      kindPhrase ext.kind ++ " but was given " ++ kindPhrase actual))

/-- The identifier list loop inside `read_extension`
(`[Exposed=(Window, Worker)]`). -/
def readIdentNamesLoop : Nat → TokState → List String →
    Except PyErr (List String × TokState)
  | 0, _, _ => .error .nonTermination
  | fuel + 1, st, acc => do
    let (tok, st) ← tokExpect st .IDENTIFIER
    let acc := acc ++ [tok.value.str]
    let (isComma, st) ← tokReadIf st .COMMA
    if isComma then readIdentNamesLoop fuel st acc
    else .ok (acc, st)

/-- `IdlParser.read_extension(locations)`. -/
def readExtension (fuel : Nat) (extTypes : List IdlExtensionType)
    (locations : List IdlExtensionLocation) (st : TokState) :
    Except PyErr (IdlExtensionInstance × TokState) := do
  let (nameTok, st) ← tokExpect st .IDENTIFIER
  let name := nameTok.value.str
  let matched := extTypes.filter (·.name = name)
  if 2 ≤ matched.length then
    .error (.assertionError "Multiple extensions with the same name")
  else
    match matched with
    | [] =>
      .error (tokRaiseError st ("[" ++ name ++
        "] is not a valid extension in this context"))
    | m :: _ =>
      if locations.all (fun l => l ∉ m.locations) then
        .error (tokRaiseError st ("[" ++ name ++
          "] is not a valid extension in this context"))
      else do
        let (isArgs, st) ← tokPeekIsType st .BEGIN_ARGS
        if isArgs then do
          let _ ← checkExtensionKind st m .ARG_LIST
          let (args, st) ← readArgList fuel st
          .ok (.argList m args, st)
        else do
          let (isEq, st) ← tokReadIf st .EQUALS
          if isEq then do
            let (isParen, st) ← tokReadIf st .BEGIN_ARGS
            if isParen then do
              let _ ← checkExtensionKind st m .IDENT_LIST
              let (names, st) ← readIdentNamesLoop fuel st []
              let (_, st) ← tokExpect st .END_ARGS
              .ok (.identList m names, st)
            else do
              let (tok2, st) ← tokExpect st .IDENTIFIER
              let name2 := tok2.value.str
              let (isArgs2, st) ← tokPeekIsType st .BEGIN_ARGS
              if isArgs2 then do
                let _ ← checkExtensionKind st m .NAMED_ARG_LIST
                let (args, st) ← readArgList fuel st
                .ok (.namedArgList m name2 args, st)
              else
                if m.kind = .IDENT_LIST then
                  .ok (.identList m [name2], st)
                else do
                  let _ ← checkExtensionKind st m .IDENT
                  .ok (.ident m name2, st)
          else do
            let _ ← checkExtensionKind st m .NO_ARGS
            .ok (.noArgs m, st)

/-- The item loop of `IdlParser.read_extensions`. -/
def readExtensionsLoop (fuel : Nat) (extTypes : List IdlExtensionType)
    (locations : List IdlExtensionLocation) :
    Nat → TokState → List IdlExtensionInstance →
    Except PyErr (List IdlExtensionInstance × TokState)
  | 0, _, _ => .error .nonTermination
  | n + 1, st, acc => do
    let (ext, st) ← readExtension fuel extTypes locations st
    let acc := acc ++ [ext]
    let (isComma, st) ← tokReadIf st .COMMA
    if isComma then readExtensionsLoop fuel extTypes locations n st acc
    else .ok (acc, st)

/-- `IdlParser.read_extensions(locations)`. -/
def readExtensions (fuel : Nat) (extTypes : List IdlExtensionType)
    (locations : List IdlExtensionLocation) (st : TokState) :
    Except PyErr (List IdlExtensionInstance × TokState) := do
  let (_, st) ← tokExpect st .BEGIN_EXTENSION
  let (exts, st) ← readExtensionsLoop fuel extTypes locations fuel st []
  let (_, st) ← tokExpect st .END_EXTENSION
  .ok (exts, st)

/-- The member loop of `IdlParser.read_dictionary`. -/
def readDictMembersLoop : Nat → TokState → List IdlAttribute →
    Except PyErr (List IdlAttribute × TokState)
  | 0, _, _ => .error .nonTermination
  | fuel + 1, st, acc => do
    let (t?, st) ← tokPeek st
    match t? with
    | none => .ok (acc, st)
    | some t =>
      if t.type = .END_INTERFACE then .ok (acc, st)
      else do
        let attrDoc := t.doc
        let (ty, st) ← readType fuel st
        let (aTok, st) ← tokExpect st .IDENTIFIER
        let (_, st) ← tokExpect st .SEMI_COLON
        readDictMembersLoop fuel st
          (acc ++ [{ name := aTok.value.str, type := ty, doc := attrDoc }])

/-- `IdlParser.read_dictionary`. -/
def readDictionary (fuel : Nat) (st : TokState) :
    Except PyErr (PDictionary × TokState) := do
  let (dTok, st) ← tokExpect st .DICTIONARY
  let dictDoc := dTok.doc
  let (nTok, st) ← tokExpect st .IDENTIFIER
  let (_, st) ← tokExpect st .BEGIN_INTERFACE
  let (attrs, st) ← readDictMembersLoop fuel st []
  let (_, st) ← tokExpect st .END_INTERFACE
  let (_, st) ← tokExpect st .SEMI_COLON
  .ok ({ name := nTok.value.str, attributes := attrs, doc := dictDoc }, st)

/-- The top-level loop of `IdlParser.parse_file`. -/
def parseFileLoop : Nat → TokState → List PDictionary →
    Except PyErr (List PDictionary × TokState)
  | 0, _, _ => .error .nonTermination
  | fuel + 1, st, acc => do
    let (t?, st) ← tokPeek st
    match t? with
    | none => .ok (acc, st)
    | some t =>
      if t.type = .DICTIONARY then do
        let (d, st) ← readDictionary fuel st
        parseFileLoop fuel st (acc ++ [d])
      else
        .error (tokRaiseError st ("Invalid top-level token \"" ++
          t.type.name ++ "\""))

/-- `IdlParser.parse_file(path, body)`. -/
def parseFile (path body : String) : Except PyErr IdlFile := do
  let st := tokInit path body
  let fuel := st.data.length + 1
  let (types, _) ← parseFileLoop fuel st []
  .ok { types := types }

/-- Convenience: the token stream of a source string, with docs
(`IdlTokenizer.next()` driven to EOF). -/
def idlTokens (body : String) : Except PyErr (List IdlToken) :=
  let st := tokInit "file" body
  let rec go : Nat → TokState → List IdlToken →
      Except PyErr (List IdlToken)
    | 0, _, _ => .error .nonTermination
    | fuel + 1, st, acc => do
      let (t?, st) ← tokNext st
      match t? with
      | none => .ok acc
      | some t => go fuel st (acc ++ [t])
  go (st.data.length + 1) st []

/-- `Options._all_features()` from `parser.py`: the values of the non-private
class attributes of `Features` (`DICTIONARY`, `DICTIONARY_REQUIRED`,
`DICTIONARY_DEFAULT`). -/
def allFeatures : List String :=
  ["dictionary", "dictionary-required", "dictionary-default"]

/-- `Options._ASSUMED_PREFIXES`. -/
def assumedPrefixes : List (String × String) :=
  [("dictionary-", "dictionary")]

/-- The state of a constructed `Options` object (`self.features`; a Python
set, modelled as a list queried by membership only). -/
structure Options where
  features : List String
deriving DecidableEq, Repr

/-- `Options.__init__(*args)`: raises `ValueError` on unknown feature names,
then adds the prefix-implied features. -/
def optionsInit (args : List String) : Except PyErr Options :=
  if args.all (· ∈ allFeatures) then
    let feats := assumedPrefixes.foldl
      (fun fs pr =>
        if fs.any (fun item => pr.1.toList.isPrefixOf item.toList) then
          fs ++ [pr.2]
        else fs)
      args
    .ok { features := feats }
  else
    .error (.valueError ("Unknown feature(s) given: " ++
      String.intercalate "," (args.filter (· ∉ allFeatures))))

/-- `Options.all()`. -/
def optionsAll : Except PyErr Options :=
  optionsInit allFeatures

/-- `Options.has_feature(feature)` for the `Features` constants the grammar
passes (always members of `_all_features()`, so the `ValueError` branch is
unreachable at those call sites). -/
def hasFeature (o : Options) (feature : String) : Bool :=
  feature ∈ o.features

/-- The module-level names defined by `webidl/types.py` (imports and
classes); Python attribute access `types.<name>` raises `AttributeError` for
anything not in this list. -/
def typesModuleNames : List String :=
  ["print_function", "collections", "sys", "enum",
   "ExtensionLocation", "ExtensionKind", "Extension", "IdlNull",
   "DebugInfo", "Argument", "IdlType", "DictMember", "Definition", "Results"]

/-- The namedtuple classes of `types.py` with their field lists. -/
def typesNamedTuples : List (String × List String) :=
  [("DebugInfo", ["lineno", "col", "line"]),
   ("Argument", ["name", "type", "optional", "is_variadic", "default",
                 "extensions"]),
   ("IdlType", ["name", "nullable", "element_type", "extensions"]),
   ("DictMember", ["name", "type", "default", "is_required", "extensions",
                   "doc", "debug", "docDebug"]),
   ("Definition", ["name", "kind", "members", "base", "is_partial",
                   "extensions", "doc", "debug", "docDebug"]),
   ("Results", ["types"])]

/-- Evaluating `types.<ctor>(<kwargs>)` in `parser.py`: attribute lookup on
the `types` module (raising `AttributeError` when the name is absent), then
namedtuple construction (raising `TypeError` when the keyword arguments do
not match the field list exactly).  Field values do not matter for any claim
settled here, so only the keyword names are modelled. -/
def callTypesCtor (ctor : String) (kwargs : List String) : Except PyErr Unit :=
  if ctor ∉ typesModuleNames then .error (.attributeError ctor)
  else
    match typesNamedTuples.find? (·.1 = ctor) with
    | none => .ok ()
    | some nt =>
      if nt.2.all (· ∈ kwargs) ∧ kwargs.all (· ∈ nt.2) then .ok ()
      else .error (.typeError ctor)

/-- A registered extension descriptor for the PLY parser (`types.Extension`
subclass with class fields `name`, `kinds`, `locations`). -/
structure PlyExtension where
  name : String
  kinds : List IdlExtensionKind
  locations : List IdlExtensionLocation
deriving DecidableEq, Repr

/-- `temp = [(ext.name, kind) for ext in extensions for kind in ext.kinds]`
from `IdlParser.__init__` in `parser.py`. -/
def plyExtensionPairs (exts : List PlyExtension) :
    List (String × IdlExtensionKind) :=
  exts.flatMap (fun e => e.kinds.map (fun k => (e.name, k)))

/-- Whether `IdlParser.__init__` raises `RuntimeError('Multiple extensions
with same name and kind')`: `extensions` truthy and
`len(set(temp)) != len(temp)`. -/
def idlParserInitRaises (exts : List PlyExtension) : Bool :=
  if exts.isEmpty then false
  else (plyExtensionPairs exts).dedup.length ≠ (plyExtensionPairs exts).length

/-- The keyword tuple `IdlLexer._keywords`. -/
def plyKeywords : List String :=
  ["any", "attribute", "callback", "const", "deleter", "dictionary", "enum",
   "false", "getter", "includes", "Infinity", "inherit", "interface",
   "iterable", "maplike", "namespace", "NaN", "null", "optional", "partial",
   "required", "sequence", "setlike", "setter", "static", "stringifier",
   "true", "typedef", "void",
   "boolean", "byte", "double", "float", "long", "short", "octet",
   "unrestricted", "unsigned", "record",
   "ByteString", "DOMString", "FrozenArray", "Promise", "USVString"]

/-- `IdlLexer.literals`. -/
def plyLiterals : List Char :=
  ['.', '(', ')', '{', '}', '[', ']', '<', '>', ',', ';', ':', '=', '?', '-']

/-- A PLY `LexToken`: `type`, `value`, `lineno`, `lexpos`. -/
structure PlyTok where
  type : String
  value : IdlTokVal
  lineno : Nat
  lexpos : Nat
deriving DecidableEq, Repr

/-- `IdlLexer.get_col(pos)`: `pos - contents.rfind('\n', 0, pos)`
(`rfind` is `-1` when there is no newline before `pos`). -/
def plyGetCol (contents : List Char) (pos : Nat) : Nat :=
  match rfindBefore contents '\n' pos with
  | some idx => pos - idx
  | none => pos + 1

/-- `IdlLexer.get_line(pos)`. -/
def plyGetLine (contents : List Char) (pos : Nat) : String :=
  let start :=
    match rfindBefore contents '\n' pos with
    | some idx => idx + 1
    | none => 0
  let stop := (findSub contents ['\n'] pos).getD contents.length
  String.mk ((contents.drop start).take (stop - start))

/-- Length matched by `t_FLOAT_LITERAL`:
`-?(([0-9]+\.[0-9]*|[0-9]*\.[0-9]+)([Ee][+-]?[0-9]+)?|[0-9]+[Ee][+-]?[0-9]+)`
(compiled with `re.VERBOSE`, so the literal spaces in the source pattern are
ignored).  Matches Python `re` first-alternative semantics. -/
def matchFloat (l : List Char) : Option Nat :=
  let matchExp : List Char → Nat := fun w =>
    match w with
    | e :: rest =>
      if e = 'e' ∨ e = 'E' then
        let (sLen, rest') := match rest with
          | '+' :: r => (1, r)
          | '-' :: r => (1, r)
          | r => (0, r)
        let ds := rest'.takeWhile asciiDigit
        if ds.isEmpty then 0 else 1 + sLen + ds.length
      else 0
    | [] => 0
  let body : List Char → Option Nat := fun w =>
    let d1 := w.takeWhile asciiDigit
    let afterD1 := w.drop d1.length
    -- first alternative of the mantissa: `[0-9]+\.[0-9]*`
    match afterD1 with
    | '.' :: frac0 =>
      if d1.isEmpty then
        -- second alternative: `[0-9]*\.[0-9]+` with an empty integer part
        let frac := frac0.takeWhile asciiDigit
        if frac.isEmpty then none
        else
          let m := 1 + frac.length
          some (m + matchExp (w.drop m))
      else
        let frac := frac0.takeWhile asciiDigit
        let m := d1.length + 1 + frac.length
        some (m + matchExp (w.drop m))
    | _ =>
      -- no dot: only `[0-9]+[Ee][+-]?[0-9]+` can match
      if d1.isEmpty then none
      else
        let e := matchExp afterD1
        if e = 0 then none else some (d1.length + e)
  match l with
  | '-' :: rest => (body rest).map (· + 1)
  | _ => body l

/-- Length matched by `t_INTEGER_LITERAL`:
`-?([1-9][0-9]*|0[Xx][0-9A-Fa-f]+|0[0-7]*)`. -/
def matchInteger (l : List Char) : Option Nat :=
  let isHex : Char → Bool := fun c =>
    asciiDigit c || ('a' ≤ c && c ≤ 'f') || ('A' ≤ c && c ≤ 'F')
  let body : List Char → Option Nat := fun w =>
    match w with
    | c :: rest =>
      if '1' ≤ c ∧ c ≤ '9' then some (1 + (rest.takeWhile asciiDigit).length)
      else if c = '0' then
        match rest with
        | x :: rest' =>
          if x = 'x' ∨ x = 'X' then
            let ds := rest'.takeWhile isHex
            if ds.isEmpty then some 1 else some (2 + ds.length)
          else some (1 + (rest.takeWhile (fun d => '0' ≤ d ∧ d ≤ '7')).length)
        | [] => some 1
      else none
    | [] => none
  match l with
  | '-' :: rest => (body rest).map (· + 1)
  | _ => body l

/-- The integer value conversion in `t_INTEGER_LITERAL` (hex, octal or
decimal depending on the prefix); the lexeme is regex-validated so the
conversion cannot fail. -/
def plyIntValue (word : List Char) : Int :=
  let (neg, w) := match word with
    | '-' :: rest => (true, rest)
    | _ => (false, word)
  let hexVal : Char → Nat := fun c =>
    if asciiDigit c then c.toNat - 48
    else if 'a' ≤ c && c ≤ 'f' then c.toNat - 87
    else c.toNat - 55
  let mag : Nat :=
    match w with
    | '0' :: x :: ds =>
      if x = 'x' ∨ x = 'X' then ds.foldl (fun a c => a * 16 + hexVal c) 0
      else (x :: ds).foldl (fun a c => a * 8 + (c.toNat - 48)) 0
    | '0' :: [] => 0
    | _ => w.foldl (fun a c => a * 10 + (c.toNat - 48)) 0
  if neg then -(mag : Int) else (mag : Int)

/-- Length matched by `t_STRING_LITERAL` (`"[^"]*"`). -/
def matchPlyString (l : List Char) : Option Nat :=
  match l with
  | '"' :: rest =>
    let body := rest.takeWhile (· ≠ '"')
    match rest.drop body.length with
    | '"' :: _ => some (body.length + 2)
    | _ => none
  | _ => none

/-- Length matched by `t_DOCSTRING` (`/\*\*(.|\n)+?\*/`, non-greedy: the
closing `*/` is the earliest occurrence leaving at least one middle
character, i.e. at index `≥ 4`). -/
def matchDocstring (l : List Char) : Option Nat :=
  if ['/', '*', '*'].isPrefixOf l then
    match findSub l ['*', '/'] 4 with
    | some p => some (p + 2)
    | none => none
  else none

/-- Length matched by `t_COMMENT` (`(/\*(.|\n)*?\*/)|(//.*\n)`; the
single-line form requires the terminating newline, which stays unconsumed in
`.*` and is consumed by the match of `\n`). -/
def matchComment (l : List Char) : Option Nat :=
  if ['/', '*'].isPrefixOf l then
    match findSub l ['*', '/'] 2 with
    | some p => some (p + 2)
    | none => none
  else if ['/', '/'].isPrefixOf l then
    let body := (l.drop 2).takeWhile (· ≠ '\n')
    match l.drop (2 + body.length) with
    | '\n' :: _ => some (2 + body.length + 1)
    | _ => none
  else none

/-- Length matched by `t_IDENTIFIER` (`_?[A-Za-z][0-9A-Za-z_-]*`). -/
def matchPlyIdentifier (l : List Char) : Option Nat :=
  let body : List Char → Option Nat := fun w =>
    match w with
    | c :: rest =>
      if asciiLetter c then
        some (1 + (rest.takeWhile
          (fun d => asciiLetter d || asciiDigit d || d = '_' || d = '-')).length)
      else none
    | [] => none
  match l with
  | '_' :: rest => ((body rest).map (· + 1)).orElse (fun _ => none)
  | _ => body l

/-- The PLY lexer state inside a parse: absolute position, line number and
`IdlLexer.last`. -/
structure LexCursor where
  lexpos : Nat
  lineno : Nat
deriving DecidableEq, Repr

/-- One step of the PLY lexer (`IdlLexer` token rules, tried in PLY's master
regex order: the function rules `t_FLOAT_LITERAL`, `t_INTEGER_LITERAL`,
`t_STRING_LITERAL`, `t_newline`, `t_DOCSTRING`, `t_COMMENT`, `t_IDENTIFIER`
in definition order, then the string rule `t_ELLIPSIS`, then literals, then
`t_error`).  Whitespace in `t_ignore` is skipped first.  Returns the next
token (or `none` at EOF) and the advanced cursor. -/
def plyLexToken (fname : String) (contents : List Char) :
    Nat → LexCursor → Except PyErr (Option PlyTok × LexCursor)
  | 0, _ => .error .nonTermination
  | fuel + 1, cur =>
    let rest := contents.drop cur.lexpos
    match rest with
    | [] => .ok (none, cur)
    | c :: _ =>
      if c = ' ' ∨ c = '\t' then
        plyLexToken fname contents fuel
          { cur with lexpos := cur.lexpos + 1 }
      else
        let mk : String → IdlTokVal → Nat → (Option PlyTok × LexCursor) :=
          fun ty v len =>
            (some { type := ty, value := v, lineno := cur.lineno,
                    lexpos := cur.lexpos },
             { cur with lexpos := cur.lexpos + len })
        match matchFloat rest with
        | some len =>
          .ok (mk "FLOAT_LITERAL"
            (.num (.float (String.mk (rest.take len)))) len)
        | none =>
        match matchInteger rest with
        | some len =>
          .ok (mk "INTEGER_LITERAL" (.num (.int (plyIntValue (rest.take len))))
            len)
        | none =>
        match matchPlyString rest with
        | some len =>
          let body := (rest.take len).drop 1 |>.dropLast
          let (t?, cur') := mk "STRING_LITERAL" (.s (String.mk body)) len
          .ok (t?, { cur' with lineno := cur'.lineno + countNewlines body })
        | none =>
        match rest.takeWhile (· = '\n') with
        | [] =>
          match matchDocstring rest with
          | some len =>
            let text := rest.take len
            let (t?, cur') := mk "DOCSTRING" (.s (String.mk text)) len
            .ok (t?, { cur' with lineno := cur'.lineno + countNewlines text })
          | none =>
          match matchComment rest with
          | some len =>
            plyLexToken fname contents fuel
              { lexpos := cur.lexpos + len
                lineno := cur.lineno + countNewlines (rest.take len) }
          | none =>
          match matchPlyIdentifier rest with
          | some len =>
            let word := String.mk (rest.take len)
            let ty := if word ∈ plyKeywords then
                String.mk (word.toList.map Char.toUpper)
              else "IDENTIFIER"
            .ok (mk ty (.s word) len)
          | none =>
          if ['.', '.', '.'].isPrefixOf rest then
            .ok (mk "ELLIPSIS" (.s "...") 3)
          else if c ∈ plyLiterals then
            .ok (mk (String.mk [c]) (.s (String.mk [c])) 1)
          else
            .error (.syntaxError ("Unexpected character \"" ++ String.mk [c]
              ++ "\"") fname cur.lineno (plyGetCol contents cur.lexpos)
              (plyGetLine contents cur.lexpos))
        | nls =>
          plyLexToken fname contents fuel
            { lexpos := cur.lexpos + nls.length
              lineno := cur.lineno + nls.length }

/-- Parser state for the PLY parser (`IdlParser` in `parser.py`): lexer
cursor, `IdlLexer.last`, the parser lookahead, `self.errors` (discovery
order), PLY's error-suppression counter, `self.options` and
`self.extensions`. -/
structure PState where
  fname : String
  contents : List Char
  cur : LexCursor
  last : Option PlyTok
  look : Option PlyTok
  errors : List PyErr
  errorcount : Nat
  opts : Options
  exts : List PlyExtension
deriving Repr

/-- Result of a parser computation: a value with the new state, or a
short-circuit carrying the state — `(some e, st)` for a raised Python
exception, `(none, st)` for PLY's `yacc.parse` giving up and returning
`None` after unrecoverable errors. -/
abbrev PRes (α : Type) : Type := Except (Option PyErr × PState) (α × PState)

/-- The parser gives up (`yacc.parse` returns `None`). -/
def pStop {α : Type} (st : PState) : PRes α := .error (none, st)

/-- Raise a Python exception out of the parser. -/
def pRaise {α : Type} (st : PState) (e : PyErr) : PRes α := .error (some e, st)

/-- Lift an `Except PyErr` computation (a raised exception keeps the current
state, like an exception propagating out of `yacc.parse`). -/
def pLift {α : Type} (st : PState) : Except PyErr α → PRes α
  | .ok a => .ok (a, st)
  | .error e => .error (some e, st)

/-- Fetch the lookahead token, running the lexer on demand (this is where
lexer `SyntaxError`s surface, exactly when PLY pulls the next token).
Updates `IdlLexer.last`. -/
def plyPeek (st : PState) : PRes (Option PlyTok) :=
  match st.look with
  | some t => .ok (some t, st)
  | none =>
    match plyLexToken st.fname st.contents (st.contents.length + 1)
        st.cur with
    | .error e => .error (some e, st)
    | .ok (t?, cur') =>
      .ok (t?, { st with
        cur := cur'
        look := t?
        last := match t? with | some t => some t | none => st.last })

/-- The lookahead's token type, `"$end"` at EOF. -/
def plyPeekType (st : PState) :
    Except (Option PyErr × PState) (String × PState) := do
  let (t?, st) ← plyPeek st
  .ok (match t? with | some t => t.type | none => "$end", st)

/-- Shift the lookahead (PLY decrements the error-suppression counter on
every successful shift). -/
def plyShift (st : PState) : PRes PlyTok :=
  match st.look with
  | some t =>
    .ok (t, { st with look := none, errorcount := st.errorcount - 1 })
  | none => .error (some (.assertionError "shift without lookahead"), st)

/-- Discard the lookahead during error recovery (no shift bookkeeping). -/
def discardLook (st : PState) : PState :=
  { st with look := none }

/-- `IdlParser._add_error(message, line, offset)` from `parser.py`. -/
def addError (st : PState) (msg : String) (line pos : Nat) : PState :=
  { st with
    errors := st.errors ++ [.syntaxError msg st.fname line
      (plyGetCol st.contents pos) (plyGetLine st.contents pos)] }

/-- `IdlParser._token_to_str`. -/
def plyTokToStr (t : PlyTok) : String :=
  if t.type = "STRING_LITERAL" ∨ t.type = "DOCSTRING" ∨
     t.type = "FLOAT_LITERAL" ∨ t.type = "INTEGER_LITERAL" then t.type
  else t.value.str

/-- `IdlParser.p_error(t)` together with PLY's suppression rule: the handler
runs only when the suppression counter is zero, and the counter is re-armed
to 3 in all cases.  `prevTok` is `self.yacc.symstack[-1]` when that is a
`LexToken` (`none` when the stack top is a non-terminal or the start
sentinel; this affects only the message text). -/
def pError (st : PState) (t? : Option PlyTok) (prevTok : Option PlyTok) :
    PState :=
  let st' :=
    if st.errorcount = 0 then
      match t? with
      | some t =>
        let msg :=
          if t.type = "DOCSTRING" then
            "This treats doc-strings (/** */) special and are only allowed before definitions or members"
          else match prevTok with
            | some pt => "Unexpected \"" ++ plyTokToStr t ++ "\" after \"" ++
                plyTokToStr pt ++ "\""
            | none => "Unexpected \"" ++ t.value.str ++ "\""
        addError st msg t.lineno t.lexpos
      | none =>
        match st.last with
        | some pv =>
          addError st ("Unexpected end of file after \"" ++ pv.value.str ++
            "\"") pv.lineno pv.lexpos
        | none => addError st "Unexpected end of file" 1 0
    else st
  { st' with errorcount := 3 }

/-- `IdlParser._check_options(p, idx, feature)`: the grammar only passes the
`Features` constants, which are always in `_all_features()`, so
`has_feature` cannot raise here. -/
def checkOptions (st : PState) (tok : PlyTok) (feature : String) : PState :=
  if hasFeature st.opts feature then st
  else
    addError st ("Feature \"" ++ feature ++ "\" is not allowed by options")
      tok.lineno tok.lexpos

/-- FOLLOW(Type) in the LALR tables PLY builds from the grammar in
`parser.py`: the terminals on which a completed type is reduced — the member
or argument name that follows it (IDENTIFIER or an `ArgumentName` keyword),
`ELLIPSIS`, or the closing `'>'` of a template / `Promise` return type.  On
any other lookahead the parser signals an error *before* running the type
rule's semantic action. -/
def followType : List String :=
  ["IDENTIFIER", "ELLIPSIS", ">",
   "ATTRIBUTE", "CALLBACK", "CONST", "DELETER", "DICTIONARY", "ENUM",
   "GETTER", "INCLUDES", "INHERIT", "INTERFACE", "ITERABLE", "MAPLIKE",
   "NAMESPACE", "PARTIAL", "REQUIRED", "SETLIKE", "SETTER", "STATIC",
   "STRINGIFIER", "TYPEDEF", "UNRESTRICTED"]

/-- The semantic action value of every `types.IdlType(...)` call in
`parser.py` (`p_SingleType`, `p_NonAnyType`, `p_ReturnType`,
`p_PrimitiveType`, `p_StringType`): the call passes `name`, `nullable`,
`element_type`, but `types.py` defines `IdlType` with a fourth required
field `extensions`, so the construction raises `TypeError`. -/
def mkPlyIdlType {α : Type} (st : PState) (k : PState → PRes α) : PRes α :=
  match callTypesCtor "IdlType" ["name", "nullable", "element_type"] with
  | .ok _ => k st
  | .error e => pRaise st e

/-- The `ArgumentName` terminals (`p_ArgumentName`). -/
def argumentNameTypes : List String :=
  ["IDENTIFIER",
   "ATTRIBUTE", "CALLBACK", "CONST", "DELETER", "DICTIONARY", "ENUM",
   "GETTER", "INCLUDES", "INHERIT", "INTERFACE", "ITERABLE", "MAPLIKE",
   "NAMESPACE", "PARTIAL", "REQUIRED", "SETLIKE", "SETTER", "STATIC",
   "STRINGIFIER", "TYPEDEF", "UNRESTRICTED"]

/-- A constructed extension object of the PLY parser (`extension(**args)`
with the default `types.Extension.__init__`, which stores the keyword
arguments as attributes; descriptors whose constructors raise are wrapped as
`ExtensionError` by `parser.py` but none are involved in the claims settled
here).  For `argList`/`namedArgList` the argument values would be
`types.Argument` objects, whose construction raises before this point. -/
inductive PlyExtInstance where
  | noArgs (name : String)
  | ident (name arg : String)
  | identList (name : String) (args : List String)
  | argList (name : String)
  | namedArgList (name argName : String)
deriving DecidableEq, Repr

/-- The extension-tuple values produced by `p_ExtendedAttribute`:
`(extension-or-None, line, offset)`. -/
abbrev PlyExtTuple := Option PlyExtInstance × Nat × Nat

/-- The descriptor-selection loop of `p_ExtendedAttribute`:
`for cur in self.extensions: if cur.name == p[1]: if (extension is None or
(kind not in extension.kind and kind in cur.kind)): extension = cur`.
Descriptors (subclasses of `types.Extension`) define `kinds`, not `kind`, so
the moment a second descriptor with the same name is inspected the condition
evaluates `extension.kind` and raises `AttributeError('kind')`. -/
def plySelectExtensionE (exts : List PlyExtension) (name : String) :
    Except PyErr (Option PlyExtension) :=
  exts.foldlM
    (fun sel cur =>
      if cur.name = name then
        match sel with
        | none => .ok (some cur)
        | some _ => .error (.attributeError "kind")
      else .ok sel)
    none

/-- The name-and-kind matching and construction part of
`p_ExtendedAttribute` (after the shape has been parsed): unknown names and
kind mismatches are recorded via `_add_error` and a `(None, line, offset)`
placeholder is returned; otherwise the descriptor is instantiated. -/
def extMatch (st : PState) (nameTok : PlyTok) (kind : IdlExtensionKind)
    (inst : PlyExtInstance) : PRes PlyExtTuple :=
  let name := nameTok.value.str
  match plySelectExtensionE st.exts name with
  | .error e => pRaise st e
  | .ok none =>
    .ok ((none, nameTok.lineno, nameTok.lexpos),
      addError st ("Unknown extension [" ++ name ++ "]") nameTok.lineno
        nameTok.lexpos)
  | .ok (some ext) =>
    if kind ∈ ext.kinds then
      .ok ((some inst, nameTok.lineno, nameTok.lexpos), st)
    else
      let msg := match ext.kinds with
        | [k] => "[" ++ name ++ "] should have " ++ kindPhrase k ++
            " but was given " ++ kindPhrase kind
        | _ => "[" ++ name ++ "] is not in an allowed form"
      .ok ((none, nameTok.lineno, nameTok.lexpos),
        addError st msg nameTok.lineno nameTok.lexpos)

/-- Semantic action of `p_Dictionary` (the non-error production):
`_check_options`, `_get_debug` for the `DICTIONARY` token (and the doc
token when present), then `types.Dictionary(...)` — an attribute `types.py`
does not define, so the action raises `AttributeError('Dictionary')`. -/
def plyDictActionOk (st : PState) (dictTok : PlyTok) (hasDoc : Bool) :
    PRes Unit :=
  let st := checkOptions st dictTok "dictionary"
  match callTypesCtor "DebugInfo" ["lineno", "col", "line"] with
  | .error e => pRaise st e
  | .ok _ =>
    match (if hasDoc then callTypesCtor "DebugInfo" ["lineno", "col", "line"]
           else .ok ()) with
    | .error e => pRaise st e
    | .ok _ =>
      pLift st (callTypesCtor "Dictionary"
        ["name", "attributes", "doc", "debug", "docDebug", "extensions"])

/-- Semantic action of `p_Dictionary_error`: `_check_options` then
`types.Dictionary(...)`, which raises `AttributeError('Dictionary')`. -/
def plyDictActionError (st : PState) (dictTok : PlyTok) : PRes Unit :=
  let st := checkOptions st dictTok "dictionary"
  pLift st (callTypesCtor "Dictionary"
    ["name", "attributes", "doc", "debug", "docDebug", "extensions"])

/-- Semantic action of `p_DictionaryMemberRest`: `_get_debug`, the feature
checks, then `types.Attribute(...)` — an attribute `types.py` does not
define, so the action raises `AttributeError('Attribute')`.  (Unreachable in
practice: the member's type rule raises `TypeError` first.) -/
def plyMemberRestAction (st : PState) (firstTok : PlyTok) (isRequired : Bool)
    (hasDefault : Bool) : PRes Unit :=
  match callTypesCtor "DebugInfo" ["lineno", "col", "line"] with
  | .error e => pRaise st e
  | .ok _ =>
    let st := if isRequired then checkOptions st firstTok "dictionary-required"
      else st
    let st := if hasDefault then checkOptions st firstTok "dictionary-default"
      else st
    pLift st (callTypesCtor "Attribute"
      ["name", "type", "default", "is_required", "doc", "debug", "docDebug"])

/-- Result of the dictionary-member loop: a cleanly parsed member list, or
recovery through the `'{' error '}' ';'` production. -/
inductive MembersRes where
  | clean (ms : List Unit)
  | recovered

/-- Error recovery for `Dictionary : ... '{' error '}' ';'`: tokens are
discarded until `'}'` can be shifted, then `'}'` and `';'` are shifted (with
re-scanning if the `';'` is missing) and the lookahead for the reduction is
pulled; EOF makes the parser give up. -/
def skipToRBraceSemi : Nat → PState →
    Except (Option PyErr × PState) (Unit × PState)
  | 0, st => pRaise st .nonTermination
  | fuel + 1, st => do
    let (t?, st) ← plyPeek st
    match t? with
    | none => pStop st
    | some t =>
      if t.type = "\x7d" then do
        let (_, st) ← plyShift st
        let (t2?, st) ← plyPeek st
        match t2? with
        | none => pStop st
        | some t2 =>
          if t2.type = ";" then do
            let (_, st) ← plyShift st
            let (_, st) ← plyPeek st
            .ok ((), st)
          else skipToRBraceSemi fuel st
      else skipToRBraceSemi fuel (discardLook st)

/-- Error recovery for `ExtendedAttributeList : '[' error ']'`. -/
def skipToRBracket : Nat → PState →
    Except (Option PyErr × PState) (Unit × PState)
  | 0, st => pRaise st .nonTermination
  | fuel + 1, st => do
    let (t?, st) ← plyPeek st
    match t? with
    | none => pStop st
    | some t =>
      if t.type = "]" then do
        let (_, st) ← plyShift st
        let (_, st) ← plyPeek st
        .ok ((), st)
      else skipToRBracket fuel (discardLook st)

/-!
The grammar of `parser.py`, embedded as a deterministic parser over the
lazily-pulled token stream.  PLY builds LALR(1) tables from the `p_` rule
docstrings; semantic actions run when a production is *reduced*, which
happens only after the lookahead token has been pulled and found in the
reduce set of the state.  The embedding reproduces this where it is
observable: lookaheads are pulled before each action that can raise, and a
completed type is only "reduced" (running the `types.IdlType` construction)
when the lookahead is in `followType` — on any other lookahead `p_error`
fires first, which is what makes the recovery on inputs like
`dictionary foo { x };` reach `p_Dictionary_error` without constructing any
type value.

Functions return `none` (inside the success value) when `p_error` has been
recorded and the caller must recover or resume scanning; the `Except` error
channel carries `(some e, st)` for a raised exception and `(none, st)` for
the parser giving up (PLY's `yacc.parse` returning `None`).
-/

/-- The reduce step of `p_PrimitiveType`: reduce (and raise `TypeError` in
the `types.IdlType` construction) when the lookahead is in the reduce set,
else `p_error`. -/
def plyPrimReduce (st : PState) (prev : PlyTok) :
    Except (Option PyErr × PState) (Option Unit × PState) := do
  let (la, st) ← plyPeekType st
  if la = "?" ∨ la ∈ followType then
    mkPlyIdlType st (fun st => .ok (some (), st))
  else
    .ok (none, pError st st.look (some prev))

/-- `ArgumentName` (`p_ArgumentName`). -/
def plyArgumentName (st : PState) :
    Except (Option PyErr × PState) (Option String × PState) := do
  let (t?, st) ← plyPeek st
  match t? with
  | none => pStop (pError st none none)
  | some t =>
    if t.type ∈ argumentNameTypes then do
      let (tok, st) ← plyShift st
      .ok (some tok.value.str, st)
    else
      .ok (none, pError st (some t) none)

/-- The grammar rules bundled as one value: the fuel-indexed family
`gStep` below unties the mutual recursion of the rules (each rule at fuel
`n + 1` calls the bundle at fuel `n`), which is observably identical to the
direct mutual definition but reduces linearly. -/
structure G where
  definitions : PState → Except (Option PyErr × PState) (List Unit × PState)
  dictionary : PState → Except (Option PyErr × PState) (Option Unit × PState)
  dictMembers : PState → Except (Option PyErr × PState) (MembersRes × PState)
  member : PState → Except (Option PyErr × PState) (Option Unit × PState)
  memberRest : PState → Except (Option PyErr × PState) (Option Unit × PState)
  typeWithExt : PState → Except (Option PyErr × PState) (Option Unit × PState)
  typeRule : PState → Except (Option PyErr × PState) (Option Unit × PState)
  primitiveType : PState → Except (Option PyErr × PState) (Option Unit × PState)
  returnType : PState → Except (Option PyErr × PState) (Option Unit × PState)
  ealOpt : PState → Except (Option PyErr × PState) (List PlyExtTuple × PState)
  eaListRest : List PlyExtTuple → PState → Except (Option PyErr × PState) (Option (List PlyExtTuple) × PState)
  extendedAttribute : PState → Except (Option PyErr × PState) (Option PlyExtTuple × PState)
  identifierList : List String → PState → Except (Option PyErr × PState) (Option (List String) × PState)
  argumentListRule : PState → Except (Option PyErr × PState) (Option (List Unit) × PState)
  argumentsRest : List Unit → PState → Except (Option PyErr × PState) (Option (List Unit) × PState)
  argument : PState → Except (Option PyErr × PState) (Option Unit × PState)
  defaultRule : PState → Except (Option PyErr × PState) (Option (Option ConstVal) × PState)
  defaultValue : PState → Except (Option PyErr × PState) (Option ConstVal × PState)

/-- The grammar at fuel 0: every rule reports exhaustion (never reached on
the inputs considered; the top-level fuel grows with the input). -/
def gZero : G :=
  { definitions := fun st => pRaise st .nonTermination
    dictionary := fun st => pRaise st .nonTermination
    dictMembers := fun st => pRaise st .nonTermination
    member := fun st => pRaise st .nonTermination
    memberRest := fun st => pRaise st .nonTermination
    typeWithExt := fun st => pRaise st .nonTermination
    typeRule := fun st => pRaise st .nonTermination
    primitiveType := fun st => pRaise st .nonTermination
    returnType := fun st => pRaise st .nonTermination
    ealOpt := fun st => pRaise st .nonTermination
    eaListRest := fun _ st => pRaise st .nonTermination
    extendedAttribute := fun st => pRaise st .nonTermination
    identifierList := fun _ st => pRaise st .nonTermination
    argumentListRule := fun st => pRaise st .nonTermination
    argumentsRest := fun _ st => pRaise st .nonTermination
    argument := fun st => pRaise st .nonTermination
    defaultRule := fun st => pRaise st .nonTermination
    defaultValue := fun st => pRaise st .nonTermination }

/-- `Definitions : Definition Definitions | Empty`, with top-level error
recovery: on an unexpected token `p_error` fires, the token is discarded and
scanning resumes in the start state. -/
def definitionsF (p : G) (st : PState) :
    Except (Option PyErr × PState) (List Unit × PState) := do
  let (t?, st) ← plyPeek st
  match t? with
  | none => .ok ([], st)
  | some t =>
    if t.type = "DICTIONARY" ∨ t.type = "[" ∨ t.type = "DOCSTRING" then do
      let (d?, st) ← p.dictionary st
      match d? with
      | some d => do
        let (rest, st) ← p.definitions st
        .ok (d :: rest, st)
      | none => p.definitions st
    else
      p.definitions (discardLook (pError st (some t) none))

/-- `Dictionary : MaybeDoc ExtendedAttributeList DICTIONARY IDENTIFIER '{'
DictionaryMembers '}' ';'` and its `error` variant.  Header-level errors
(`none` result) are recovered by the caller's discard-and-resume loop;
body-level errors recover to `'}' ';'` and run `p_Dictionary_error`. -/
def dictionaryF (n : Nat) (p : G) (st : PState) :
    Except (Option PyErr × PState) (Option Unit × PState) := do
  let (ty, st) ← plyPeekType st
  let (hasDoc, st) ←
    if ty = "DOCSTRING" then do
      let (_, st) ← plyShift st
      .ok (true, st)
    else .ok (false, st)
  let (_, st) ← p.ealOpt st
  let (t?, st) ← plyPeek st
  match t? with
  | none => pStop (pError st none none)
  | some t =>
    if t.type ≠ "DICTIONARY" then
      .ok (none, discardLook (pError st (some t) none))
    else do
      let (dTok, st) ← plyShift st
      let (t2?, st) ← plyPeek st
      match t2? with
      | none => pStop (pError st none none)
      | some t2 =>
        if t2.type ≠ "IDENTIFIER" then
          .ok (none, discardLook (pError st (some t2) (some dTok)))
        else do
          let (nTok, st) ← plyShift st
          let (t3?, st) ← plyPeek st
          match t3? with
          | none => pStop (pError st none none)
          | some t3 =>
            if t3.type ≠ "\x7b" then
              .ok (none, discardLook (pError st (some t3) (some nTok)))
            else do
              let (_, st) ← plyShift st
              let (r, st) ← p.dictMembers st
              match r with
              | .clean _ => do
                let (_, st) ← plyShift st   -- the '}' the loop stopped at
                let (la, st) ← plyPeekType st
                if la = ";" then do
                  let (_, st) ← plyShift st
                  let (_, st) ← plyPeek st  -- lookahead for the reduction
                  let (_, st) ← plyDictActionOk st dTok hasDoc
                  .ok (some (), st)
                else do
                  let (t4?, st) ← plyPeek st
                  let st := pError st t4? none
                  let (_, st) ← skipToRBraceSemi n st
                  let (_, st) ← plyDictActionError st dTok
                  .ok (some (), st)
              | .recovered => do
                let (_, st) ← plyDictActionError st dTok
                .ok (some (), st)

/-- `DictionaryMembers : DictionaryMember DictionaryMembers | Empty`;
`.recovered` means a member failed to parse and recovery consumed through
`'}' ';'`. -/
def dictMembersF (n : Nat) (p : G) (st : PState) :
    Except (Option PyErr × PState) (MembersRes × PState) := do
  let (t?, st) ← plyPeek st
  match t? with
  | none => pStop (pError st none none)
  | some t =>
    if t.type = "\x7d" then .ok (.clean [], st)
    else do
      let (m?, st) ← p.member st
      match m? with
      | some _ => do
        let (r, st) ← p.dictMembers st
        match r with
        | .clean ms => .ok (.clean (() :: ms), st)
        | .recovered => .ok (.recovered, st)
      | none => do
        let (_, st) ← skipToRBraceSemi n st
        .ok (.recovered, st)

/-- `DictionaryMember : MaybeDoc ExtendedAttributeList
DictionaryMemberRest`. -/
def memberF (p : G) (st : PState) :
    Except (Option PyErr × PState) (Option Unit × PState) := do
  let (ty, st) ← plyPeekType st
  let (_, st) ←
    if ty = "DOCSTRING" then do
      let (_, st) ← plyShift st
      .ok (true, st)
    else .ok (false, st)
  let (_, st) ← p.ealOpt st
  p.memberRest st

/-- `DictionaryMemberRest : REQUIRED TypeWithExtendedAttributes IDENTIFIER
Default ';' | Type IDENTIFIER Default ';'`. -/
def memberRestF (p : G) (st : PState) :
    Except (Option PyErr × PState) (Option Unit × PState) := do
  let (t?, st) ← plyPeek st
  match t? with
  | none => pStop (pError st none none)
  | some t => do
    let isRequired := t.type = "REQUIRED"
    let (tyRes, st) ←
      if isRequired then do
        let (_, st) ← plyShift st
        p.typeWithExt st
      else
        p.typeRule st
    match tyRes with
    | none => .ok (none, st)
    | some _ => do
      let (n?, st) ← plyPeek st
      match n? with
      | none => pStop (pError st none none)
      | some n =>
        if n.type ≠ "IDENTIFIER" then
          .ok (none, pError st (some n) none)
        else do
          let (_, st) ← plyShift st
          let (d?, st) ← p.defaultRule st
          match d? with
          | none => .ok (none, st)
          | some dflt => do
            let (la?, st) ← plyPeek st
            match la? with
            | none => pStop (pError st none none)
            | some la =>
              if la.type ≠ ";" then
                .ok (none, pError st (some la) none)
              else do
                let (_, st) ← plyShift st
                let (_, st) ← plyPeek st  -- lookahead for the reduction
                let (_, st) ← plyMemberRestAction st t isRequired
                  dflt.isSome
                .ok (some (), st)

/-- `TypeWithExtendedAttributes : ExtendedAttributeList Type`. -/
def typeWithExtF (p : G) (st : PState) :
    Except (Option PyErr × PState) (Option Unit × PState) := do
  let (_, st) ← p.ealOpt st
  p.typeRule st

/-- `Type : SingleType | UnionType Null` with
`SingleType : NonAnyType | ANY` and the `NonAnyType` alternatives.  Every
completed type runs `types.IdlType(...)` at reduce time, which raises
`TypeError` (see `mkPlyIdlType`); a lookahead outside the reduce set makes
`p_error` fire first (`none` result). -/
def typeRuleF (p : G) (st : PState) :
    Except (Option PyErr × PState) (Option Unit × PState) := do
  let (t?, st) ← plyPeek st
  match t? with
  | none => pStop (pError st none none)
  | some t =>
    if t.type = "ANY" then do
      let (aTok, st) ← plyShift st
      let (la, st) ← plyPeekType st
      if la ∈ followType then
        mkPlyIdlType st (fun st => .ok (some (), st))
      else
        .ok (none, pError st st.look (some aTok))
    else if t.type = "(" then do
      let (lp, st) ← plyShift st
      let (la, st) ← plyPeekType st
      if la = ")" then do
        let (_, st) ← plyShift st
        let (la2, st) ← plyPeekType st
        if la2 = "?" ∨ la2 ∈ followType then
          -- p_UnionType raises SyntaxError('Union types not supported')
          pRaise st (.syntaxBare "Union types not supported")
        else
          .ok (none, pError st st.look none)
      else
        .ok (none, pError st st.look (some lp))
    else if t.type = "UNSIGNED" ∨ t.type = "LONG" ∨ t.type = "SHORT" ∨
        t.type = "UNRESTRICTED" ∨ t.type = "FLOAT" ∨ t.type = "DOUBLE" ∨
        t.type = "BOOLEAN" ∨ t.type = "BYTE" ∨ t.type = "OCTET" then
      p.primitiveType st
    else if t.type = "BYTESTRING" ∨ t.type = "DOMSTRING" ∨
        t.type = "USVSTRING" then do
      let (sTok, st) ← plyShift st
      let (la, st) ← plyPeekType st
      -- FOLLOW(StringType) also contains ',' (the record key position)
      if la = "?" ∨ la = "," ∨ la ∈ followType then
        mkPlyIdlType st (fun st => .ok (some (), st))
      else
        .ok (none, pError st st.look (some sTok))
    else if t.type = "IDENTIFIER" then do
      let (idTok, st) ← plyShift st
      let (la, st) ← plyPeekType st
      if la = "?" then do
        let (qTok, st) ← plyShift st
        let (la2, st) ← plyPeekType st
        if la2 ∈ followType then
          mkPlyIdlType st (fun st => .ok (some (), st))
        else
          .ok (none, pError st st.look (some qTok))
      else if la ∈ followType then
        mkPlyIdlType st (fun st => .ok (some (), st))
      else
        .ok (none, pError st st.look (some idTok))
    else if t.type = "SEQUENCE" ∨ t.type = "FROZENARRAY" then do
      let (kTok, st) ← plyShift st
      let (la, st) ← plyPeekType st
      if la ≠ "<" then
        .ok (none, pError st st.look (some kTok))
      else do
        let (_, st) ← plyShift st
        let (inner, st) ← p.typeWithExt st
        match inner with
        | none => .ok (none, st)
        | some _ => do
          let (la2, st) ← plyPeekType st
          if la2 ≠ ">" then
            .ok (none, pError st st.look none)
          else do
            let (_, st) ← plyShift st
            let (la3, st) ← plyPeekType st
            if la3 = "?" ∨ la3 ∈ followType then
              mkPlyIdlType st (fun st => .ok (some (), st))
            else
              .ok (none, pError st st.look none)
    else if t.type = "PROMISE" then do
      let (kTok, st) ← plyShift st
      let (la, st) ← plyPeekType st
      if la ≠ "<" then
        .ok (none, pError st st.look (some kTok))
      else do
        let (_, st) ← plyShift st
        let (inner, st) ← p.returnType st
        match inner with
        | none => .ok (none, st)
        | some _ => do
          let (la2, st) ← plyPeekType st
          if la2 ≠ ">" then
            .ok (none, pError st st.look none)
          else do
            let (_, st) ← plyShift st
            let (la3, st) ← plyPeekType st
            if la3 ∈ followType then
              mkPlyIdlType st (fun st => .ok (some (), st))
            else
              .ok (none, pError st st.look none)
    else if t.type = "RECORD" then do
      let (kTok, st) ← plyShift st
      let (la, st) ← plyPeekType st
      if la ≠ "<" then
        .ok (none, pError st st.look (some kTok))
      else do
        let (_, st) ← plyShift st
        let (la2?, st) ← plyPeek st
        match la2? with
        | none => pStop (pError st none none)
        | some la2 =>
          if la2.type = "BYTESTRING" ∨ la2.type = "DOMSTRING" ∨
              la2.type = "USVSTRING" then do
            let (sTok, st) ← plyShift st
            let (la3, st) ← plyPeekType st
            if la3 = "," then
              -- p_StringType reduces here and raises TypeError
              mkPlyIdlType st (fun st => .ok (some (), st))
            else
              .ok (none, pError st st.look (some sTok))
          else
            .ok (none, pError st (some la2) none)
    else
      .ok (none, pError st (some t) none)

/-- `PrimitiveType` (`p_PrimitiveType`): the space-joined keyword sequences;
the reduction constructs `types.IdlType` and raises `TypeError`. -/
def primitiveTypeF (_p : G) (st : PState) :
    Except (Option PyErr × PState) (Option Unit × PState) := do
  let (t?, st) ← plyPeek st
  match t? with
  | none => pStop (pError st none none)
  | some t =>
    if t.type = "UNSIGNED" then do
      let (u, st) ← plyShift st
      let (la, st) ← plyPeekType st
      if la = "LONG" then do
        let (l1, st) ← plyShift st
        let (la2, st) ← plyPeekType st
        if la2 = "LONG" then do
          let (l2, st) ← plyShift st
          plyPrimReduce st l2
        else plyPrimReduce st l1
      else if la = "SHORT" then do
        let (s, st) ← plyShift st
        plyPrimReduce st s
      else
        .ok (none, pError st st.look (some u))
    else if t.type = "LONG" then do
      let (l1, st) ← plyShift st
      let (la, st) ← plyPeekType st
      if la = "LONG" then do
        let (l2, st) ← plyShift st
        plyPrimReduce st l2
      else plyPrimReduce st l1
    else if t.type = "UNRESTRICTED" then do
      let (ur, st) ← plyShift st
      let (la, st) ← plyPeekType st
      if la = "FLOAT" ∨ la = "DOUBLE" then do
        let (f, st) ← plyShift st
        plyPrimReduce st f
      else
        .ok (none, pError st st.look (some ur))
    else do
      let (k, st) ← plyShift st
      plyPrimReduce st k

/-- `ReturnType : Type | VOID` (`p_ReturnType`; the `VOID` arm constructs
`types.IdlType('void', ...)` and raises `TypeError`). -/
def returnTypeF (p : G) (st : PState) :
    Except (Option PyErr × PState) (Option Unit × PState) := do
  let (ty, st) ← plyPeekType st
  if ty = "VOID" then do
    let (v, st) ← plyShift st
    let (la, st) ← plyPeekType st
    if la = ">" then
      mkPlyIdlType st (fun st => .ok (some (), st))
    else
      .ok (none, pError st st.look (some v))
  else p.typeRule st

/-- `ExtendedAttributeList : '[' ExtendedAttribute ExtendedAttributes ']' |
Empty` with the `'[' error ']'` recovery production. -/
def ealOptF (n : Nat) (p : G) (st : PState) :
    Except (Option PyErr × PState) (List PlyExtTuple × PState) := do
  let (ty, st) ← plyPeekType st
  if ty = "[" then do
    let (_, st) ← plyShift st
    let (a?, st) ← p.extendedAttribute st
    match a? with
    | none => do
      let (_, st) ← skipToRBracket n st
      .ok ([], st)
    | some a => do
      let (rest?, st) ← p.eaListRest [a] st
      match rest? with
      | some l => .ok (l, st)
      | none => do
        let (_, st) ← skipToRBracket n st
        .ok ([], st)
  else .ok ([], st)

/-- `ExtendedAttributes : ',' ExtendedAttribute ExtendedAttributes | Empty`
followed by the closing `']'`. -/
def eaListRestF (p : G) (acc : List PlyExtTuple) (st : PState) :
    Except (Option PyErr × PState) (Option (List PlyExtTuple) × PState) := do
  let (la?, st) ← plyPeek st
  match la? with
  | none => pStop (pError st none none)
  | some la =>
    if la.type = "," then do
      let (_, st) ← plyShift st
      let (a?, st) ← p.extendedAttribute st
      match a? with
      | none => .ok (none, st)
      | some a => p.eaListRest (acc ++ [a]) st
    else if la.type = "]" then do
      let (_, st) ← plyShift st
      .ok (some acc, st)
    else
      .ok (none, pError st (some la) none)

/-- `ExtendedAttribute` (`p_ExtendedAttribute`): the five shapes, the
name/kind matching and the instance construction. -/
def extendedAttributeF (p : G) (st : PState) :
    Except (Option PyErr × PState) (Option PlyExtTuple × PState) := do
  let (t?, st) ← plyPeek st
  match t? with
  | none => pStop (pError st none none)
  | some t =>
    if t.type ≠ "IDENTIFIER" then
      .ok (none, pError st (some t) none)
    else do
      let (nameTok, st) ← plyShift st
      let name := nameTok.value.str
      let (la, st) ← plyPeekType st
      if la = "=" then do
        let (_, st) ← plyShift st
        let (la2?, st) ← plyPeek st
        match la2? with
        | none => pStop (pError st none none)
        | some la2 =>
          if la2.type = "IDENTIFIER" then do
            let (v, st) ← plyShift st
            let (la3, st) ← plyPeekType st
            if la3 = "(" then do
              let (_, st) ← plyShift st
              let (args?, st) ← p.argumentListRule st
              match args? with
              | none => .ok (none, st)
              | some _ => do
                let (la4, st) ← plyPeekType st
                if la4 = ")" then do
                  let (_, st) ← plyShift st
                  let (r, st) ← extMatch st nameTok .NAMED_ARG_LIST
                    (.namedArgList name v.value.str)
                  .ok (some r, st)
                else
                  .ok (none, pError st st.look none)
            else if la3 = "," ∨ la3 = "]" then do
              let (r, st) ← extMatch st nameTok .IDENT
                (.ident name v.value.str)
              .ok (some r, st)
            else
              .ok (none, pError st st.look (some v))
          else if la2.type = "(" then do
            let (_, st) ← plyShift st
            let (ids?, st) ← p.identifierList [] st
            match ids? with
            | none => .ok (none, st)
            | some ids => do
              let (la3, st) ← plyPeekType st
              if la3 = ")" then do
                let (_, st) ← plyShift st
                let (r, st) ← extMatch st nameTok .IDENT_LIST
                  (.identList name ids)
                .ok (some r, st)
              else
                .ok (none, pError st st.look none)
          else
            .ok (none, pError st (some la2) none)
      else if la = "(" then do
        let (_, st) ← plyShift st
        let (args?, st) ← p.argumentListRule st
        match args? with
        | none => .ok (none, st)
        | some _ => do
          let (la2, st) ← plyPeekType st
          if la2 = ")" then do
            let (_, st) ← plyShift st
            let (r, st) ← extMatch st nameTok .ARG_LIST (.argList name)
            .ok (some r, st)
          else
            .ok (none, pError st st.look none)
      else if la = "," ∨ la = "]" then do
        let (r, st) ← extMatch st nameTok .NO_ARGS (.noArgs name)
        .ok (some r, st)
      else
        .ok (none, pError st st.look (some nameTok))

/-- `IdentifierList : IDENTIFIER Identifiers` with
`Identifiers : ',' IDENTIFIER Identifiers | Empty`. -/
def identifierListF (p : G) (acc : List String) (st : PState) :
    Except (Option PyErr × PState) (Option (List String) × PState) := do
  let (t?, st) ← plyPeek st
  match t? with
  | none => pStop (pError st none none)
  | some t =>
    if t.type ≠ "IDENTIFIER" then
      .ok (none, pError st (some t) none)
    else do
      let (idTok, st) ← plyShift st
      let (la, st) ← plyPeekType st
      if la = "," then do
        let (_, st) ← plyShift st
        p.identifierList (acc ++ [idTok.value.str]) st
      else .ok (some (acc ++ [idTok.value.str]), st)

/-- `ArgumentList : Argument Arguments | Empty`.  The ordering checks of
`p_ArgumentList`/`p_Arguments` inspect the `optional`/`is_variadic` fields
of the constructed `types.Argument` values; at this snapshot `p_Argument`'s
`types.Argument(...)` call raises `TypeError` first (missing `extensions`
field), so those checks are unreachable and the loop below carries no
argument values. -/
def argumentListRuleF (p : G) (st : PState) :
    Except (Option PyErr × PState) (Option (List Unit) × PState) := do
  let (la, st) ← plyPeekType st
  if la = ")" then .ok (some [], st)
  else do
    let (a?, st) ← p.argument st
    match a? with
    | none => .ok (none, st)
    | some _ => p.argumentsRest [()] st

/-- `Arguments : ',' Argument Arguments | Empty`. -/
def argumentsRestF (p : G) (acc : List Unit) (st : PState) :
    Except (Option PyErr × PState) (Option (List Unit) × PState) := do
  let (la, st) ← plyPeekType st
  if la = "," then do
    let (_, st) ← plyShift st
    let (a?, st) ← p.argument st
    match a? with
    | none => .ok (none, st)
    | some _ => p.argumentsRest (acc ++ [()]) st
  else .ok (some acc, st)

/-- `Argument : ExtendedAttributeList OPTIONAL TypeWithExtendedAttributes
ArgumentName Default | ExtendedAttributeList Type Ellipsis ArgumentName`
(`p_Argument`; the reduction calls `types.Argument(...)` without the
`extensions` field `types.py` requires, raising `TypeError` — unreachable in
practice because the type rule raises first). -/
def argumentF (p : G) (st : PState) :
    Except (Option PyErr × PState) (Option Unit × PState) := do
  let (_, st) ← p.ealOpt st
  let (la, st) ← plyPeekType st
  if la = "OPTIONAL" then do
    let (_, st) ← plyShift st
    let (ty?, st) ← p.typeWithExt st
    match ty? with
    | none => .ok (none, st)
    | some _ => do
      let (n?, st) ← plyArgumentName st
      match n? with
      | none => .ok (none, st)
      | some _ => do
        let (d?, st) ← p.defaultRule st
        match d? with
        | none => .ok (none, st)
        | some _ => do
          let (_, st) ← plyPeek st
          let (_, st) ← pLift st (callTypesCtor "Argument"
            ["name", "type", "optional", "is_variadic", "default"])
          .ok (some (), st)
  else do
    let (ty?, st) ← p.typeRule st
    match ty? with
    | none => .ok (none, st)
    | some _ => do
      let (laE, st) ← plyPeekType st
      let (_, st) ←
        if laE = "ELLIPSIS" then do
          let (_, st) ← plyShift st
          .ok (true, st)
        else .ok (false, st)
      let (n?, st) ← plyArgumentName st
      match n? with
      | none => .ok (none, st)
      | some _ => do
        let (_, st) ← plyPeek st
        let (_, st) ← pLift st (callTypesCtor "Argument"
          ["name", "type", "optional", "is_variadic", "default"])
        .ok (some (), st)

/-- `Default : '=' DefaultValue | Empty` (`p_Default`). -/
def defaultRuleF (p : G) (st : PState) :
    Except (Option PyErr × PState) (Option (Option ConstVal) × PState) := do
  let (la, st) ← plyPeekType st
  if la = "=" then do
    let (_, st) ← plyShift st
    let (v?, st) ← p.defaultValue st
    match v? with
    | none => .ok (none, st)
    | some v => .ok (some (some v), st)
  else .ok (some none, st)

/-- `DefaultValue : ConstValue | STRING_LITERAL | '[' ']'` and
`ConstValue` (`p_DefaultValue`, `p_ConstValue`). -/
def defaultValueF (_p : G) (st : PState) :
    Except (Option PyErr × PState) (Option ConstVal × PState) := do
  let (t?, st) ← plyPeek st
  match t? with
  | none => pStop (pError st none none)
  | some t =>
    if t.type = "TRUE" then do
      let (_, st) ← plyShift st
      .ok (some (.b true), st)
    else if t.type = "FALSE" then do
      let (_, st) ← plyShift st
      .ok (some (.b false), st)
    else if t.type = "FLOAT_LITERAL" ∨ t.type = "INTEGER_LITERAL" then do
      let (tok, st) ← plyShift st
      match tok.value with
      | .num v => .ok (some (.num v), st)
      | .s v => .ok (some (.s v), st)
    else if t.type = "NAN" then do
      let (_, st) ← plyShift st
      .ok (some (.num .nan), st)
    else if t.type = "INFINITY" then do
      let (_, st) ← plyShift st
      .ok (some (.num .inf), st)
    else if t.type = "-" then do
      let (m, st) ← plyShift st
      let (la, st) ← plyPeekType st
      if la = "INFINITY" then do
        let (_, st) ← plyShift st
        .ok (some (.num .ninf), st)
      else
        .ok (none, pError st st.look (some m))
    else if t.type = "NULL" then do
      let (_, st) ← plyShift st
      -- the value is `types.IdlNull`, which `types.py` defines
      .ok (some .null, st)
    else if t.type = "STRING_LITERAL" then do
      let (tok, st) ← plyShift st
      .ok (some (.s tok.value.str), st)
    else if t.type = "[" then do
      let (lb, st) ← plyShift st
      let (la, st) ← plyPeekType st
      if la = "]" then do
        let (_, st) ← plyShift st
        .ok (some .emptyList, st)
      else
        .ok (none, pError st st.look (some lb))
    else
      .ok (none, pError st (some t) none)

/-- The grammar at fuel `n`: one level of every rule, closed over the
grammar at fuel `n - 1`. -/
def gStep : Nat → G
  | 0 => gZero
  | n + 1 =>
    let p := gStep n
    { definitions := definitionsF p
      dictionary := dictionaryF n p
      dictMembers := dictMembersF n p
      member := memberF p
      memberRest := memberRestF p
      typeWithExt := typeWithExtF p
      typeRule := typeRuleF p
      primitiveType := primitiveTypeF p
      returnType := returnTypeF p
      ealOpt := ealOptF n p
      eaListRest := eaListRestF p
      extendedAttribute := extendedAttributeF p
      identifierList := identifierListF p
      argumentListRule := argumentListRuleF p
      argumentsRest := argumentsRestF p
      argument := argumentF p
      defaultRule := defaultRuleF p
      defaultValue := defaultValueF p }

def plyDefinitions (fuel : Nat) (st : PState) :
    Except (Option PyErr × PState) (List Unit × PState) :=
  (gStep fuel).definitions st

def plyDictionary (fuel : Nat) (st : PState) :
    Except (Option PyErr × PState) (Option Unit × PState) :=
  (gStep fuel).dictionary st

def plyDictMembers (fuel : Nat) (st : PState) :
    Except (Option PyErr × PState) (MembersRes × PState) :=
  (gStep fuel).dictMembers st

def plyMember (fuel : Nat) (st : PState) :
    Except (Option PyErr × PState) (Option Unit × PState) :=
  (gStep fuel).member st

def plyMemberRest (fuel : Nat) (st : PState) :
    Except (Option PyErr × PState) (Option Unit × PState) :=
  (gStep fuel).memberRest st

def plyTypeWithExt (fuel : Nat) (st : PState) :
    Except (Option PyErr × PState) (Option Unit × PState) :=
  (gStep fuel).typeWithExt st

def plyType (fuel : Nat) (st : PState) :
    Except (Option PyErr × PState) (Option Unit × PState) :=
  (gStep fuel).typeRule st

def plyPrimitiveType (fuel : Nat) (st : PState) :
    Except (Option PyErr × PState) (Option Unit × PState) :=
  (gStep fuel).primitiveType st

def plyReturnType (fuel : Nat) (st : PState) :
    Except (Option PyErr × PState) (Option Unit × PState) :=
  (gStep fuel).returnType st

def plyEALOpt (fuel : Nat) (st : PState) :
    Except (Option PyErr × PState) (List PlyExtTuple × PState) :=
  (gStep fuel).ealOpt st

def plyEAListRest (fuel : Nat) (acc : List PlyExtTuple) (st : PState) :
    Except (Option PyErr × PState) (Option (List PlyExtTuple) × PState) :=
  (gStep fuel).eaListRest acc st

def plyExtendedAttribute (fuel : Nat) (st : PState) :
    Except (Option PyErr × PState) (Option PlyExtTuple × PState) :=
  (gStep fuel).extendedAttribute st

def plyIdentifierList (fuel : Nat) (acc : List String) (st : PState) :
    Except (Option PyErr × PState) (Option (List String) × PState) :=
  (gStep fuel).identifierList acc st

def plyArgumentListRule (fuel : Nat) (st : PState) :
    Except (Option PyErr × PState) (Option (List Unit) × PState) :=
  (gStep fuel).argumentListRule st

def plyArgumentsRest (fuel : Nat) (acc : List Unit) (st : PState) :
    Except (Option PyErr × PState) (Option (List Unit) × PState) :=
  (gStep fuel).argumentsRest acc st

def plyArgument (fuel : Nat) (st : PState) :
    Except (Option PyErr × PState) (Option Unit × PState) :=
  (gStep fuel).argument st

def plyDefault (fuel : Nat) (st : PState) :
    Except (Option PyErr × PState) (Option (Option ConstVal) × PState) :=
  (gStep fuel).defaultRule st

def plyDefaultValue (fuel : Nat) (st : PState) :
    Except (Option PyErr × PState) (Option ConstVal × PState) :=
  (gStep fuel).defaultValue st

/-- What `yacc.parse` produced: a return value (`none` when the parser gave
up after unrecoverable errors) or a raised exception. -/
inductive YaccFinal where
  | ret (r : Option (List Unit))
  | raised (e : PyErr)
deriving DecidableEq, Repr

/-- Run the grammar on an input: the recorded `self.errors` (in discovery
order) together with the final `yacc.parse` outcome. -/
def plyParseRaw (o : Options) (exts : List PlyExtension)
    (name contents : String) : List PyErr × YaccFinal :=
  let st0 : PState :=
    { fname := name
      contents := contents.toList
      cur := { lexpos := 0, lineno := 1 }
      last := none
      look := none
      errors := []
      errorcount := 0
      opts := o
      exts := exts }
  match plyDefinitions (4 * contents.length + 64) st0 with
  | .ok (defs, st) => (st.errors, .ret (some defs))
  | .error (none, st) => (st.errors, .ret none)
  | .error (some e, st) => (st.errors, .raised e)

/-- The observable outcome of `IdlParser.parse` (`parser.py`): a returned
`types.Results` value, a raised `IdlSyntaxError` carrying its list of inner
errors (the primary message/position is the head of that list), or an
exception that is not a `SyntaxError` and therefore propagates uncaught. -/
inductive ParseOutcome where
  | ok (ret : Option (List Unit))
  | idlSyntaxError (inner : List PyErr)
  | uncaught (e : PyErr)
deriving DecidableEq, Repr

/-- `IdlParser.parse` after `yacc.parse`: a `SyntaxError` raised out of the
grammar is caught and *prepended* (`self.errors = [e] + self.errors`); any
other exception propagates; otherwise `IdlSyntaxError(self.errors)` is
raised iff errors were recorded. -/
def parseFinish (x : List PyErr × YaccFinal) : ParseOutcome :=
  match x with
  | (errors, .raised e) =>
    if e.isSyntaxError then .idlSyntaxError (e :: errors) else .uncaught e
  | (errors, .ret v) =>
    if errors.isEmpty then .ok v else .idlSyntaxError errors

/-- The errors in the order the parser *discovered* them: the recorded
`self.errors` followed by a trailing caught `SyntaxError` (which the code
nevertheless prepends). -/
def plyDiscovered (x : List PyErr × YaccFinal) : List PyErr :=
  match x with
  | (errors, .raised e) => errors ++ (if e.isSyntaxError then [e] else [])
  | (errors, .ret _) => errors

/-- `IdlParser(options=Options(*features)).parse(name, contents)` with no
extensions. -/
def plyParseWith (features : List String) (name contents : String) :
    ParseOutcome :=
  match optionsInit features with
  | .ok o => parseFinish (plyParseRaw o [] name contents)
  | .error e => .uncaught e

/-- `IdlParser(options=Options.all()).parse(name, contents)` with no
extensions. -/
def plyParseAll (name contents : String) : ParseOutcome :=
  match optionsAll with
  | .ok o => parseFinish (plyParseRaw o [] name contents)
  | .error e => .uncaught e

/-!
## Claim theorems

Each theorem settles one claim of the specification against the embedded
code above.
-/

/-- C1: the spec says parsing `"dictionary foo { x };\ndictionary bar
{y};"` raises a single aggregate syntax error whose `inner_errors` has
exactly two entries, one on line 1 and one on line 2, the malformed body
being recovered at its closing `};` so later dictionaries are still checked.
The code instead crashes: after recording the first member error (line 1,
column 20, as the spec expects), the recovery production
`p_Dictionary_error` evaluates `types.Dictionary`, a name `types.py` does
not define, and the resulting `AttributeError` — not a `SyntaxError` — 
propagates out of `parse` uncaught, so no aggregate error is raised and the
line-2 error is never discovered. -/
theorem C1_multi_error_input_crashes_uncaught :
    plyParseAll "" "dictionary foo \x7b x \x7d;\ndictionary bar \x7by\x7d;" =
      .uncaught (.attributeError "Dictionary") ∧
    (match optionsAll with
     | .ok o =>
       plyParseRaw o [] ""
         "dictionary foo \x7b x \x7d;\ndictionary bar \x7by\x7d;"
     | .error e => ([e], .ret none)) =
      ([.syntaxError "Unexpected \"\x7d\" after \"x\"" "" 1 20
          "dictionary foo \x7b x \x7d;"],
       .raised (.attributeError "Dictionary")) :=
  ⟨rfl, rfl⟩

/-- C2: the spec says a successful parse returns `Definition` records and
that `"dictionary Foo {};"` parses to one `Definition` with name `"Foo"`,
kind `"dictionary"`, empty members, base `None` and `is_partial` false.  The
code cannot produce any such value: the semantic action of `p_Dictionary`
constructs `types.Dictionary(...)`, but `types.py` defines `Definition`
(and no `Dictionary`), so even this minimal input makes `parse` raise an
uncaught `AttributeError` instead of returning. -/
theorem C2_empty_dictionary_parse_crashes :
    plyParseAll "" "dictionary Foo \x7b\x7d;" =
      .uncaught (.attributeError "Dictionary") ∧
    callTypesCtor "Dictionary"
      ["name", "attributes", "doc", "debug", "docDebug", "extensions"] =
      .error (.attributeError "Dictionary") ∧
    "Dictionary" ∉ typesModuleNames :=
  ⟨rfl, rfl, by decide⟩

/-- C4: the spec says a trailing `?` marks exactly the type it follows as
nullable (`sequence<Foo?>` vs `sequence<Foo>?`) and that `Promise<T>` is
never nullable.  No parsed type value can exist to satisfy this: every type
production's semantic action calls
`types.IdlType(name=..., nullable=..., element_type=...)`, while the
`IdlType` namedtuple in `types.py` requires a fourth field `extensions`, so
both dictionary inputs crash `parse` with an uncaught `TypeError` the moment
the member type is reduced. -/
theorem C4_nullable_type_parse_crashes :
    plyParseAll "" "dictionary F \x7bsequence<Foo>? foo;\x7d;" =
      .uncaught (.typeError "IdlType") ∧
    plyParseAll "" "dictionary F \x7bsequence<Foo?> foo;\x7d;" =
      .uncaught (.typeError "IdlType") ∧
    callTypesCtor "IdlType" ["name", "nullable", "element_type"] =
      .error (.typeError "IdlType") :=
  ⟨rfl, rfl, rfl⟩

/-- C6: the spec says `"dictionary Foo { required long x; };"` parses
successfully under `Options(["dictionary-required"])` and `Options.all()`
and raises an aggregate error with a located feature error under
`Options([])` or `Options(["dictionary"])`.  The feature check is never
reached: the member's type production crashes first (`types.IdlType` takes
four fields, the action passes three), so all four option sets produce the
same uncaught `TypeError` — no success and no feature diagnostics. -/
theorem C6_required_member_crashes_under_all_options :
    plyParseWith ["dictionary-required"] ""
      "dictionary Foo \x7b required long x; \x7d;" =
      .uncaught (.typeError "IdlType") ∧
    plyParseAll "" "dictionary Foo \x7b required long x; \x7d;" =
      .uncaught (.typeError "IdlType") ∧
    plyParseWith [] "" "dictionary Foo \x7b required long x; \x7d;" =
      .uncaught (.typeError "IdlType") ∧
    plyParseWith ["dictionary"] ""
      "dictionary Foo \x7b required long x; \x7d;" =
      .uncaught (.typeError "IdlType") :=
  ⟨rfl, rfl, rfl, rfl⟩

/-- C3 (counterexample): the spec says the aggregate error's primary
message/position are those of the *first recorded* error and that
`inner_errors` holds all errors in discovery order.  On `"foo bar $"` the
parser first records the grammar error at `"foo"` (line 1, column 1), then
the lexer raises on `"$"` (line 1, column 9); `parse` *prepends* the caught
`SyntaxError` (`self.errors = [e] + self.errors`), so the raised aggregate's
primary is the `"$"` error — the *last*-discovered one — and `inner_errors`
is not in discovery order. -/
theorem C3_counterexample_primary_is_last_discovered :
    plyParseAll "" "foo bar $" =
      .idlSyntaxError
        [.syntaxError "Unexpected character \"$\"" "" 1 9 "foo bar $",
         .syntaxError "Unexpected \"foo\"" "" 1 1 "foo bar $"] ∧
    plyDiscovered (match optionsAll with
      | .ok o => plyParseRaw o [] "" "foo bar $"
      | .error e => ([e], .ret none)) =
      [.syntaxError "Unexpected \"foo\"" "" 1 1 "foo bar $",
       .syntaxError "Unexpected character \"$\"" "" 1 9 "foo bar $"] :=
  ⟨rfl, rfl⟩

/-- C3 (amended): when `yacc.parse` finishes without an exception and errors
were recorded, the aggregate's inner list is the recorded list in discovery
order and the primary is its head, the first recorded error; but when a
`SyntaxError` stops parsing after earlier errors were recorded, the caught
exception is *prepended*, so the primary is the final (last-discovered)
error and the inner list is that error followed by the recorded ones. -/
theorem C3_amended_aggregation (r : List PyErr) (e : PyErr)
    (v : Option (List Unit)) (he : e.isSyntaxError = true) (hr : r ≠ []) :
    parseFinish (r, .ret v) = .idlSyntaxError r ∧
    parseFinish (r, .raised e) = .idlSyntaxError (e :: r) ∧
    plyDiscovered (r, .raised e) = r ++ [e] := by
  refine ⟨?_, ?_, ?_⟩
  · simp [parseFinish, List.isEmpty_iff, hr]
  · simp [parseFinish, he]
  · simp [plyDiscovered, he]

/-- Witness for `C3_amended_aggregation` at a concrete recorded list and a
concrete raised `SyntaxError`. -/
theorem C3_amended_aggregation_witness :
    parseFinish ([.syntaxBare "first"], .ret none) =
      .idlSyntaxError [.syntaxBare "first"] ∧
    parseFinish ([.syntaxBare "first"], .raised (.syntaxBare "late")) =
      .idlSyntaxError [.syntaxBare "late", .syntaxBare "first"] ∧
    plyDiscovered ([.syntaxBare "first"], .raised (.syntaxBare "late")) =
      [.syntaxBare "first", .syntaxBare "late"] :=
  ⟨(C3_amended_aggregation [.syntaxBare "first"] (.syntaxBare "late") none
      rfl (by decide)).1,
   (C3_amended_aggregation [.syntaxBare "first"] (.syntaxBare "late") none
      rfl (by decide)).2.1,
   (C3_amended_aggregation [.syntaxBare "first"] (.syntaxBare "late") none
      rfl (by decide)).2.2⟩

/-- C7 (counterexample): the spec lists five capability names, including
`dictionary-inherit` and `dictionary-partial`.  The `Features` class in
`parser.py` defines only `dictionary`, `dictionary-required` and
`dictionary-default`, so `Options` construction raises `ValueError` for the
two extra names the spec claims are accepted. -/
theorem C7_counterexample_inherit_partial_rejected :
    optionsInit ["dictionary-inherit"] =
      .error (.valueError "Unknown feature(s) given: dictionary-inherit") ∧
    optionsInit ["dictionary-partial"] =
      .error (.valueError "Unknown feature(s) given: dictionary-partial") ∧
    allFeatures = ["dictionary", "dictionary-required",
      "dictionary-default"] :=
  ⟨rfl, rfl, rfl⟩

/-- C7 (amended): `Options` construction succeeds exactly when every
requested capability name is one of the three defined feature names
`dictionary`, `dictionary-required`, `dictionary-default`, and raises
`ValueError` for any set containing a name outside that list. -/
theorem C7_amended_options_feature_set (args : List String) :
    (∃ o, optionsInit args = .ok o) ↔ ∀ a ∈ args, a ∈ allFeatures := by
  unfold optionsInit
  by_cases h : args.all (fun a => decide (a ∈ allFeatures))
  · simp only [h, if_true]
    simp only [List.all_eq_true, decide_eq_true_eq] at h
    exact iff_of_true ⟨_, rfl⟩ h
  · simp only [h, if_false]
    rw [List.all_eq_true] at h
    simp only [decide_eq_true_eq] at h
    exact iff_of_false (by rintro ⟨o, ho⟩; cases ho) h

/-- Witness for `C7_amended_options_feature_set` at a concrete accepted
feature set. -/
theorem C7_amended_options_feature_set_witness :
    ∃ o, optionsInit ["dictionary-required", "dictionary"] = .ok o :=
  (C7_amended_options_feature_set
    ["dictionary-required", "dictionary"]).mpr (by decide)

/-- C8 (counterexample): the spec says a pending doc string is cleared by a
following non-doc block comment, so in `"/** D */ /* x */ foo"` the token
`foo` carries no doc.  `_skip_whitespace_and_comments` never clears
`self._doc` on a plain comment (only `/**` comments assign it), so `foo`
still carries `"/** D */"`. -/
theorem C8_counterexample_doc_survives_plain_comment :
    idlTokens "/** D */ /* x */ foo" =
      .ok [{ type := .IDENTIFIER, value := .s "foo", length := 3,
             doc := some "/** D */" }] :=
  rfl

/-- C8 (amended): a block comment starting with `/**` (and not `/**/`) is
captured as the pending doc string and attached to the next token produced
— `"/** Foo */ dictionary X {};"` makes `"/** Foo */"` the doc of the `X`
definition, while plain `/* Foo */` or `// Foo` comments attach no doc.  At
most one doc string is pending at a time because a later doc comment
*replaces* the pending one (with its preceding same-line whitespace
prefixed); a plain comment does not clear it. -/
theorem C8_amended_doc_attachment :
    parseFile "f" "/** Foo */ dictionary X \x7b\x7d;" =
      .ok { types := [{ name := "X", attributes := [],
                        doc := some "/** Foo */" }] } ∧
    parseFile "f" "/* Foo */ dictionary X \x7b\x7d;" =
      .ok { types := [{ name := "X", attributes := [], doc := none }] } ∧
    idlTokens "/* Foo */ foo" =
      .ok [{ type := .IDENTIFIER, value := .s "foo", length := 3,
             doc := none }] ∧
    idlTokens "// Foo\nfoo" =
      .ok [{ type := .IDENTIFIER, value := .s "foo", length := 3,
             doc := none }] ∧
    idlTokens "/** A */ /** B */ foo" =
      .ok [{ type := .IDENTIFIER, value := .s "foo", length := 3,
             doc := some " /** B */" }] :=
  ⟨rfl, rfl, rfl, rfl, rfl⟩

/-- C9: for a registered descriptor whose kind is `IDENT_LIST`, at any site
its `locations` allow, `read_extension` accepts both the parenthesized form
`[IdentList=(Foo)]` and the bare form `[IdentList=Foo]`, the bare
identifier producing the one-element list `["Foo"]`. -/
theorem C9_ident_list_accepts_bare_identifier (site : IdlExtensionLocation) :
    ∃ stA stB,
      readExtensions 64 [⟨"IdentList", .IDENT_LIST, [site]⟩] [site]
        (tokInit "f" "[IdentList=(Foo)]") =
        .ok ([.identList ⟨"IdentList", .IDENT_LIST, [site]⟩ ["Foo"]],
          stA) ∧
      readExtensions 64 [⟨"IdentList", .IDENT_LIST, [site]⟩] [site]
        (tokInit "f" "[IdentList=Foo]") =
        .ok ([.identList ⟨"IdentList", .IDENT_LIST, [site]⟩ ["Foo"]],
          stB) := by
  cases site <;> exact ⟨_, _, rfl, rfl⟩

/-- C10: `IdlParser.__init__` raises (a `RuntimeError`) exactly when the
extension list is non-empty and the flattened `(name, kind)` pairs of the
registered descriptors contain a duplicate — so two descriptors sharing
both name and kind raise at construction time, and construction succeeds
whenever every `(name, kind)` pair is distinct. -/
theorem C10_duplicate_extension_check (exts : List PlyExtension) :
    idlParserInitRaises exts = true ↔
      exts ≠ [] ∧ ¬(plyExtensionPairs exts).Nodup := by
  have key : ∀ l : List (String × IdlExtensionKind),
      l.dedup.length ≠ l.length ↔ ¬l.Nodup := by
    intro l
    constructor
    · intro h hn
      exact h (by rw [hn.dedup])
    · intro hn h
      exact hn (((l.dedup_sublist).eq_of_length h) ▸ l.nodup_dedup)
  unfold idlParserInitRaises
  by_cases he : exts.isEmpty
  · simp [List.isEmpty_iff.mp he]
  · have hne : exts ≠ [] := by simpa [List.isEmpty_iff] using he
    simp [he, hne, key]

/-- Witness for `C10_duplicate_extension_check`: two descriptors sharing
name and kind raise; distinct names do not. -/
theorem C10_duplicate_extension_check_witness :
    idlParserInitRaises
      [⟨"Foo", [.NO_ARGS], []⟩, ⟨"Foo", [.NO_ARGS], []⟩] = true ∧
    idlParserInitRaises
      [⟨"Foo", [.NO_ARGS], []⟩, ⟨"Bar", [.NO_ARGS], []⟩] = false :=
  ⟨(C10_duplicate_extension_check
      [⟨"Foo", [.NO_ARGS], []⟩, ⟨"Foo", [.NO_ARGS], []⟩]).mpr
    ⟨by decide, by decide⟩,
   by decide⟩

/-- A successfully read variadic flag for an optional argument is `false`
(the ellipsis is rejected). -/
theorem readOneArgVariadic_spec {st : TokState} {v : Bool} {st₂ : TokState}
    (h : readOneArgVariadic true st = .ok (v, st₂)) : v = false := by
  unfold readOneArgVariadic at h
  rw [if_pos rfl] at h
  split at h
  · exact Except.noConfusion h
  · split at h
    · exact Except.noConfusion h
    · injection h with h'
      injection h' with hv _
      exact hv.symm

/-- A successfully read default for a non-optional argument is `none`, and
success implies no optional argument preceded it. -/
theorem readOneArgDefault_spec {po : Bool} {st : TokState}
    {d : Option ConstVal} {st₂ : TokState}
    (h : readOneArgDefault false po st = .ok (d, st₂)) :
    d = none ∧ po = false := by
  unfold readOneArgDefault at h
  rw [if_neg (by simp)] at h
  split at h
  · exact Except.noConfusion h
  · split at h
    · exact Except.noConfusion h
    · split at h
      · exact Except.noConfusion h
      · injection h with h'
        injection h' with hd hst
        refine ⟨hd.symm, ?_⟩
        have hpo : ¬(po = true) := by assumption
        simpa using hpo

/-- What a single successfully read argument satisfies (`read_arg_list` loop
body): a non-optional argument has no default, an optional argument is
never variadic, and a non-optional argument is rejected when an optional
one was already read (`priorOptional`). -/
theorem readOneArg_spec {fuel : Nat} {st : TokState} {po : Bool}
    {a : IdlArgument} {stF : TokState}
    (h : readOneArg fuel st po = .ok (a, stF)) :
    (a.optional = false → a.default = none) ∧
    (a.optional = true → a.is_variadic = false) ∧
    (po = true → a.optional = true) := by
  unfold readOneArg at h
  cases h1 : tokReadIf st .OPTIONAL with
  | error e => rw [h1] at h; exact Except.noConfusion h
  | ok p1 =>
    obtain ⟨optional, st1⟩ := p1
    simp only [h1] at h
    cases h2 : readType fuel st1 with
    | error e => rw [h2] at h; exact Except.noConfusion h
    | ok p2 =>
      obtain ⟨ty, st2⟩ := p2
      simp only [h2] at h
      cases h3 : readOneArgVariadic optional st2 with
      | error e => rw [h3] at h; exact Except.noConfusion h
      | ok p3 =>
        obtain ⟨variadic, st3⟩ := p3
        simp only [h3] at h
        cases h4 : tokExpect st3 .IDENTIFIER with
        | error e => rw [h4] at h; exact Except.noConfusion h
        | ok p4 =>
          obtain ⟨nameTok, st4⟩ := p4
          simp only [h4] at h
          cases h5 : readOneArgDefault optional po st4 with
          | error e => rw [h5] at h; exact Except.noConfusion h
          | ok p5 =>
            obtain ⟨dflt, st5⟩ := p5
            simp only [h5] at h
            injection h with h'
            injection h' with ha hst
            subst ha
            cases optional with
            | false =>
              refine ⟨fun _ => (readOneArgDefault_spec h5).1,
                      fun hx => absurd hx (by simp),
                      fun hx => ?_⟩
              have h6 := (readOneArgDefault_spec h5).2
              rw [hx] at h6
              exact absurd h6 (by simp)
            | true =>
              exact ⟨fun hx => absurd hx (by simp),
                     fun _ => readOneArgVariadic_spec h3,
                     fun _ => rfl⟩

/-- Invariants preserved by the `read_arg_list` loop: starting from an
accumulated list whose members are all non-variadic, optional-monotone and
default-only-if-optional, a successful run produces a list in which only
the last argument may be variadic, no optional argument is variadic,
optionality is monotone, and only optional arguments carry defaults. -/
theorem readArgListLoop_spec :
    ∀ (fuel : Nat) (st : TokState) (ret out : List IdlArgument)
      (stF : TokState),
      readArgListLoop fuel st ret = .ok (out, stF) →
      (∀ x ∈ ret, x.is_variadic = false) →
      ret.Pairwise (fun x y => x.optional = true → y.optional = true) →
      (∀ x ∈ ret, x.default.isSome = true → x.optional = true) →
      (∀ x ∈ out.dropLast, x.is_variadic = false) ∧
      (∀ x ∈ out, x.optional = true → x.is_variadic = false) ∧
      out.Pairwise (fun x y => x.optional = true → y.optional = true) ∧
      (∀ x ∈ out, x.default.isSome = true → x.optional = true) := by
  intro fuel
  induction fuel with
  | zero =>
    intro st ret out stF h _ _ _
    exact Except.noConfusion h
  | succ n ih =>
    intro st ret out stF h hvar hpw hdef
    unfold readArgListLoop at h
    cases h1 : readOneArg n st (ret.any (·.optional)) with
    | error e => rw [h1] at h; exact Except.noConfusion h
    | ok p1 =>
      obtain ⟨arg, st1⟩ := p1
      have hspec := readOneArg_spec h1
      have hargOpt : (∃ x ∈ ret, x.optional = true) → arg.optional = true :=
        fun ⟨x, hx, hxo⟩ =>
          hspec.2.2 (List.any_eq_true.mpr ⟨x, hx, by simp [hxo]⟩)
      simp only [h1] at h
      cases h2 : tokPeekIsType st1 .COMMA with
      | error e => rw [h2] at h; exact Except.noConfusion h
      | ok p2 =>
        obtain ⟨isComma, st2⟩ := p2
        simp only [h2] at h
        have hpw' : (ret ++ [arg]).Pairwise
            (fun x y => x.optional = true → y.optional = true) := by
          rw [List.pairwise_append]
          exact ⟨hpw, List.pairwise_singleton _ _,
            fun x hx y hy hxo => by
              rw [List.mem_singleton] at hy
              subst hy
              exact hargOpt ⟨x, hx, hxo⟩⟩
        have hdef' : ∀ x ∈ ret ++ [arg],
            x.default.isSome = true → x.optional = true := by
          intro x hx hs
          rcases List.mem_append.mp hx with hx | hx
          · exact hdef x hx hs
          · rw [List.mem_singleton] at hx
            subst hx
            cases ho : x.optional with
            | true => rfl
            | false => rw [hspec.1 ho] at hs; exact Bool.noConfusion hs
        cases isComma with
        | false =>
          simp only [Bool.false_eq_true, if_false] at h
          injection h with h'
          injection h' with hout hst
          subst hout
          refine ⟨?_, ?_, hpw', hdef'⟩
          · intro x hx
            rw [List.dropLast_concat] at hx
            exact hvar x hx
          · intro x hx hxo
            rcases List.mem_append.mp hx with hx | hx
            · exact hvar x hx
            · rw [List.mem_singleton] at hx
              subst hx
              exact hspec.2.1 hxo
        | true =>
          simp only [if_true] at h
          cases hv : arg.is_variadic with
          | true => rw [hv] at h; simp only [if_true] at h
                    exact Except.noConfusion h
          | false =>
            rw [hv] at h
            simp only [Bool.false_eq_true, if_false] at h
            cases h3 : tokExpect st2 .COMMA with
            | error e => rw [h3] at h; exact Except.noConfusion h
            | ok p3 =>
              obtain ⟨tk, st3⟩ := p3
              simp only [h3] at h
              have hvar' : ∀ x ∈ ret ++ [arg], x.is_variadic = false := by
                intro x hx
                rcases List.mem_append.mp hx with hx | hx
                · exact hvar x hx
                · rw [List.mem_singleton] at hx
                  subst hx
                  exact hv
              exact ih st3 (ret ++ [arg]) out stF h hvar' hpw' hdef'

/-- C5: every argument list accepted by `read_arg_list` satisfies the
ordering invariants — only the last argument may be variadic, no argument
is both optional and variadic, once an argument is optional all following
ones are, and only optional arguments carry defaults — and the violating
inputs `"(optional long x, long y)"` and `"(long... args, long y)"` are
rejected during the parse with located errors. -/
theorem C5_argument_list_invariants (fuel : Nat) (st : TokState)
    (args : List IdlArgument) (stF : TokState)
    (h : readArgList fuel st = .ok (args, stF)) :
    ((∀ x ∈ args.dropLast, x.is_variadic = false) ∧
     (∀ x ∈ args, x.optional = true → x.is_variadic = false) ∧
     args.Pairwise (fun x y => x.optional = true → y.optional = true) ∧
     (∀ x ∈ args, x.default.isSome = true → x.optional = true)) ∧
    readArgList 64 (tokInit "f" "(optional long x, long y)") =
      .error (.syntaxError "Optional arguments must appear last" "f" 1 25
        "(optional long x, long y)") ∧
    readArgList 64 (tokInit "f" "(long... args, long y)") =
      .error (.syntaxError "An argument with \"...\" must appear last"
        "f" 1 14 "(long... args, long y)") := by
  refine ⟨?_, rfl, rfl⟩
  unfold readArgList at h
  cases hA : tokExpect st .BEGIN_ARGS with
  | error e => rw [hA] at h; exact Except.noConfusion h
  | ok pA =>
    obtain ⟨tA, s0⟩ := pA
    simp only [hA] at h
    cases hB : tokPeekIsType s0 .END_ARGS with
    | error e => rw [hB] at h; exact Except.noConfusion h
    | ok pB =>
      obtain ⟨isEnd, s1⟩ := pB
      simp only [hB] at h
      cases isEnd with
      | true =>
        rw [if_pos rfl] at h
        simp only [] at h
        cases hC : tokExpect s1 .END_ARGS with
        | error e => rw [hC] at h; exact Except.noConfusion h
        | ok pC =>
          obtain ⟨tC, s2⟩ := pC
          simp only [hC] at h
          injection h with h'
          injection h' with hargs hst
          subst hargs
          simp
      | false =>
        rw [if_neg (by simp)] at h
        cases hL : readArgListLoop fuel s1 [] with
        | error e => rw [hL] at h; exact Except.noConfusion h
        | ok pL =>
          obtain ⟨ret, s2⟩ := pL
          simp only [hL] at h
          cases hC : tokExpect s2 .END_ARGS with
          | error e => rw [hC] at h; exact Except.noConfusion h
          | ok pC =>
            obtain ⟨tC, s3⟩ := pC
            simp only [hC] at h
            injection h with h'
            injection h' with hargs hst
            subst hargs
            exact readArgListLoop_spec fuel s1 [] ret s2 hL
              (by simp) (by simp) (by simp)

/-- Witness for `C5_argument_list_invariants` at the concrete accepted
argument list `"(long a, optional long b)"`. -/
theorem C5_argument_list_invariants_witness :
    ∃ args stF,
      readArgList 64 (tokInit "f" "(long a, optional long b)") =
        .ok (args, stF) ∧
      args.Pairwise (fun x y => x.optional = true → y.optional = true) :=
  ⟨_, _, rfl, ((C5_argument_list_invariants 64
      (tokInit "f" "(long a, optional long b)") _ _ rfl).1).2.2.1⟩

/-- Witness for `C9_ident_list_accepts_bare_identifier` at the
dictionary-member site. -/
theorem C9_ident_list_accepts_bare_identifier_witness :
    ∃ stA stB,
      readExtensions 64
        [⟨"IdentList", .IDENT_LIST, [.DICTIONARY_MEMBER]⟩]
        [.DICTIONARY_MEMBER] (tokInit "f" "[IdentList=(Foo)]") =
        .ok ([.identList
          ⟨"IdentList", .IDENT_LIST, [.DICTIONARY_MEMBER]⟩ ["Foo"]],
          stA) ∧
      readExtensions 64
        [⟨"IdentList", .IDENT_LIST, [.DICTIONARY_MEMBER]⟩]
        [.DICTIONARY_MEMBER] (tokInit "f" "[IdentList=Foo]") =
        .ok ([.identList
          ⟨"IdentList", .IDENT_LIST, [.DICTIONARY_MEMBER]⟩ ["Foo"]],
          stB) :=
  C9_ident_list_accepts_bare_identifier .DICTIONARY_MEMBER
